import Mathlib

/-!
Verification of the record filtering/classification engine of the
playwright-test-runner-and-debugger repository: the generic trace filter
(`PlaywrightTraceFilter` in the trace-filter module) and the network-log
filter (`NetworkTraceFilter` in `networkTraceFilter.ts`), together with
their preset registries.

Shallow-embedding conventions:
* JavaScript objects that the filters inspect are embedded as Lean
  structures mirroring the TypeScript interfaces (`FilterOptions`,
  `FilterStats`, `TraceEntry`, `NetworkFilterOptions`,
  `NetworkFilterStats`, `NetworkTraceEntry`).  Fields that the code only
  copies, deletes, or serializes — never inspects — are kept as opaque
  `String`-valued maps (`extra` fields) or `Option String` slots.
* Dynamically-typed fields that the code inspects through `typeof`/
  truthiness checks (`entry.type`, `entry.messageType`, `entry.text`,
  `bodySize`, timing values) are embedded as the small dynamic value type
  `JPrim`.  JavaScript numbers are embedded as `Int`: every numeric
  value the claims exercise is integral, and the one numeric
  transformation (`Math.round(x*100)/100` in `reducePrecision`) is
  embedded as its restriction to integers, on which it is the map
  `n * 100 / 100`.
* The line-reading phase (`split("\n")`, `trim()`, `JSON.parse`) is
  embedded by presenting the input file as a `List InLine`: each element
  records whether the corresponding (trimmed) line is blank, fails to
  parse (carrying the raw text and the parse-error description), or
  parses to an entry.  `JSON.parse` itself is a host-library call and is
  not re-implemented.
* Mutable per-instance statistics are embedded by explicit state passing:
  each run function takes the statistics left by the previous call
  (`prev`) and returns the new statistics, mirroring the field updates of
  the source line by line.
* File sizes measured before filtering (`fs.statSync(...).size`,
  `inputContent.length`) are passed in as a `sizeBefore : Nat` parameter;
  the size after filtering is the length of the serialized output string.
-/

/-- Dynamic (JSON-primitive) value, for fields the filters inspect through
JavaScript truthiness and `typeof` checks. -/
inductive JPrim where
  | null : JPrim
  | bool (b : Bool) : JPrim
  | num (n : Int) : JPrim
  | str (s : String) : JPrim
deriving DecidableEq

/-- JavaScript truthiness of an embedded dynamic value. -/
def truthy : JPrim → Bool
  | .null => false
  | .bool b => b
  | .num n => n != 0
  | .str s => s != ""

/-- The JavaScript `x || d` idiom on a possibly-absent field: the field
value when present and truthy, otherwise the default. -/
def jsOr (v : Option JPrim) (d : JPrim) : JPrim :=
  match v with
  | some x => if truthy x then x else d
  | none => d

/-- One decimal digit character. -/
def digitChar (d : Nat) : Char :=
  match d with
  | 0 => '0' | 1 => '1' | 2 => '2' | 3 => '3' | 4 => '4'
  | 5 => '5' | 6 => '6' | 7 => '7' | 8 => '8' | 9 => '9' | _ => '*'

/-- Decimal digits of a natural number, by fuel-bounded structural
recursion (so that the kernel can evaluate it). -/
def natStrAux : Nat → Nat → List Char
  | 0, _ => []
  | fuel + 1, n =>
      if n < 10 then [digitChar n]
      else natStrAux fuel (n / 10) ++ [digitChar (n % 10)]

/-- Decimal digits of a natural number (the embedding's own printer, used
so that serialized output is amenable to character-level reasoning). -/
def natStr (n : Nat) : String :=
  String.mk (natStrAux (n + 1) n)

/-- Decimal representation of an integer. -/
def intStr (i : Int) : String :=
  if i < 0 then "-" ++ natStr i.natAbs else natStr i.natAbs

/-- Representation of an embedded JavaScript number (integral, see the
header note), exactly the JSON integer format. -/
def ratStr (n : Int) : String := intStr n

/-- JSON escaping of one character (the escapes `JSON.stringify` emits on
the character set the engine handles). -/
def escChar (c : Char) : List Char :=
  if c = '"' then ['\\', '"']
  else if c = '\\' then ['\\', '\\']
  else if c = '\n' then ['\\', 'n']
  else if c = '\r' then ['\\', 'r']
  else if c = '\t' then ['\\', 't']
  else [c]

/-- JSON string literal (quoted, escaped), as `JSON.stringify` writes it. -/
def quoteStr (s : String) : String :=
  String.mk ('"' :: s.data.foldr (fun c acc => escChar c ++ acc) ['"'])

/-- `Array.prototype.join(sep)`: pieces joined by a separator. -/
def joinSep (sep : String) : List String → String
  | [] => ""
  | [s] => s
  | s :: s2 :: rest => s ++ sep ++ joinSep sep (s2 :: rest)

/-- Substring containment, the embedding of JavaScript
`String.prototype.includes`: `strIncludes hay needle` holds when `needle`
occurs contiguously in `hay`. -/
def chLead : List Char → List Char → Bool
  | [], _ => true
  | _ :: _, [] => false
  | a :: as, b :: bs => a == b && chLead as bs

/-- Occurrence of `needle` as a contiguous run somewhere in `hay`. -/
def chSub (needle : List Char) : List Char → Bool
  | [] => chLead needle []
  | hay@(_ :: rest) => chLead needle hay || chSub needle rest

/-- JavaScript `hay.includes(needle)`. -/
def strIncludes (hay needle : String) : Bool :=
  chSub needle.data hay.data

/-- JavaScript `s.endsWith(suf)`. -/
def strEndsWith (s suf : String) : Bool :=
  chLead suf.data.reverse s.data.reverse

/-- JavaScript `s.startsWith(pre)`. -/
def strStartsWith (s p : String) : Bool :=
  chLead p.data s.data

/-- JavaScript `s.toLowerCase()` (character-level lowering, kept
structural so the kernel can evaluate it). -/
def lowerStr (s : String) : String :=
  String.mk (s.data.map Char.toLower)

/-- Splitting a character list at a separator character; the pieces, in
order, never contain the separator, and splitting the empty list yields
one empty piece — exactly JavaScript `split` on a one-character string. -/
def splitCh (sep : Char) : List Char → List (List Char)
  | [] => [[]]
  | c :: rest =>
      if c = sep then [] :: splitCh sep rest
      else
        match splitCh sep rest with
        | [] => [[c]]
        | p :: ps => (c :: p) :: ps

/-- JavaScript `s.split(sep)` for a one-character separator. -/
def splitStr (sep : Char) (s : String) : List String :=
  (splitCh sep s.data).map String.mk

/-- JavaScript `String(v)` coercion of an embedded dynamic value. -/
def jsToString : JPrim → String
  | .null => "null"
  | .bool true => "true"
  | .bool false => "false"
  | .num n => ratStr n
  | .str s => s

/-- One line of the input file after splitting and trimming: blank,
unparseable (raw text plus parse-error description), or parsed. -/
inductive InLine (α : Type) where
  | blank : InLine α
  | bad (raw err : String) : InLine α
  | good (raw : String) (e : α) : InLine α

/-- Count of blank lines in an input. -/
def countBlank {α : Type} (ls : List (InLine α)) : Nat :=
  ls.countP (fun l => match l with | .blank => true | _ => false)

/-- Count of unparseable lines in an input. -/
def countBad {α : Type} (ls : List (InLine α)) : Nat :=
  ls.countP (fun l => match l with | .bad _ _ => true | _ => false)

/-- Count of successfully parsed lines in an input. -/
def countGood {α : Type} (ls : List (InLine α)) : Nat :=
  ls.countP (fun l => match l with | .good _ _ => true | _ => false)

/-- The JavaScript counter-object update `m[k] = (m[k] || 0) + 1`:
an existing key is incremented in place, a new key is appended. -/
def bump : List (String × Nat) → String → List (String × Nat)
  | [], k => [(k, 1)]
  | (k', n) :: rest, k =>
      if k' = k then (k', n + 1) :: rest else (k', n) :: bump rest k

/-- Sum of the values of a counter object. -/
def sumVals (m : List (String × Nat)) : Nat :=
  (m.map Prod.snd).sum

/-- Value of a counter object at a key (0 when absent). -/
def lookupCount (m : List (String × Nat)) (k : String) : Nat :=
  (m.lookup k).getD 0

/-! ## Trace filter (`PlaywrightTraceFilter`) -/

/-- Option bundle of the trace filter (interface `FilterOptions`). -/
structure FilterOptions where
  filterConsoleLogs : Bool
  removeFrameSnapshots : Bool
  removeScreencastFrames : Bool
  removeUIElements : Bool
  truncateStackTraces : Bool
deriving DecidableEq

/-- Statistics record of the trace filter (interface `FilterStats`). -/
structure FilterStats where
  removedByType : List (String × Nat)
  removedEntries : Nat
  sizeAfter : Nat
  sizeBefore : Nat
  totalEntries : Nat
deriving DecidableEq

/-- The freshly reset statistics assigned at the start of
`filterTraceFile` (all counters zero, empty category map). -/
def freshFilterStats : FilterStats :=
  { removedByType := [], removedEntries := 0, sizeAfter := 0,
    sizeBefore := 0, totalEntries := 0 }

/-- A trace record (interface `TraceEntry`): the discriminator `type` and
the two fields the filter inspects (`messageType`, `text`) are explicit;
every other field is carried opaquely in `extra` and never inspected. -/
structure TraceEntry where
  type : Option JPrim
  messageType : Option JPrim
  text : Option JPrim
  extra : List (String × String)
deriving DecidableEq

/-- Keyword set of `isImportantConsoleLog`. -/
def importantKeywords : List String :=
  ["error", "warning", "failed", "exception", "uncaught", "test",
   "assertion", "timeout", "network", "xhr", "fetch"]

/-- `PlaywrightTraceFilter.isImportantConsoleLog`: case-insensitive
keyword search in `String(entry.text || "")`. -/
def isImportantConsoleLog (e : TraceEntry) : Bool :=
  let text := lowerStr (jsToString (jsOr e.text (.str "")))
  importantKeywords.any (fun keyword => strIncludes text keyword)

/-- The literal marker line inserted by stack-trace truncation. -/
def truncMarker : String := "    ... [truncated stack trace] ..."

/-- The in-place stack-trace truncation applied to a long console text:
first 10 lines, marker, last 5 lines (`lines.slice(0,10)`, the marker,
`lines.slice(-5)`, joined by newlines). -/
def truncateText (s : String) : String :=
  let lines := splitStr '\n' s
  joinSep "\n" (lines.take 10 ++ [truncMarker] ++ lines.drop (lines.length - 5))

/-- UI-element type set of the fourth removal rule. -/
def uiElementTypes : List String := ["button", "checkbox", "input", "text"]

/-- `PlaywrightTraceFilter.shouldRemoveEntry`: decides removal (returning
the attributed category, `none` for keep, exactly the first matching
enabled rule) and, on the keep path, applies stack-trace truncation to
the entry's `text` in place.  Mirrors the source's guard chain:
frame-snapshot, screencast-frame, console-verbose, ui-elements, then the
truncation step. -/
def shouldRemoveEntry (e : TraceEntry) (o : FilterOptions) :
    Option String × TraceEntry :=
  let entryType := jsOr e.type (.str "")
  if o.removeFrameSnapshots && (entryType == .str "frame-snapshot") then
    (some "frame-snapshot", e)
  else if o.removeScreencastFrames && (entryType == .str "screencast-frame") then
    (some "screencast-frame", e)
  else if o.filterConsoleLogs && (entryType == .str "console") &&
      ["info", "log"].contains (jsToString (jsOr e.messageType (.str ""))) &&
      !(isImportantConsoleLog e) then
    (some "console-verbose", e)
  else if o.removeUIElements &&
      (uiElementTypes.map JPrim.str).contains entryType then
    (some "ui-elements", e)
  else if o.truncateStackTraces && (entryType == .str "console") then
    match e.text with
    | some (.str s) =>
        if s != "" && s.length > 5000 && strIncludes s "\n    at " &&
            (splitStr '\n' s).length > 20 then
          (none, { e with text := some (.str (truncateText s)) })
        else (none, e)
    | _ => (none, e)
  else (none, e)

/-- The record synthesized for a line that fails `JSON.parse` in the
trace filter: `{ error: String(error), line: trimmedLine, type:
"malformed" }`. -/
def mkMalformedTrace (raw err : String) : TraceEntry :=
  { type := some (.str "malformed"), messageType := none, text := none,
    extra := [("error", err), ("line", raw)] }

/-- One loop iteration of `filterTraceFile`: blank lines are skipped;
parse failures synthesize a malformed record (without touching
`totalEntries`); parsed entries are counted and then kept (possibly
truncated) or removed with their category attributed. -/
def traceStep (o : FilterOptions) (st : FilterStats) :
    InLine TraceEntry → FilterStats × Option TraceEntry
  | .blank => (st, none)
  | .bad raw err => (st, some (mkMalformedTrace raw err))
  | .good _ e =>
      let st1 := { st with totalEntries := st.totalEntries + 1 }
      match shouldRemoveEntry e o with
      | (some cat, _) =>
          ({ st1 with removedEntries := st1.removedEntries + 1,
                      removedByType := bump st1.removedByType cat }, none)
      | (none, kept) => (st1, some kept)

/-- The whole read/classify loop of `filterTraceFile` over the input
lines, threading the statistics and collecting the surviving records in
input order. -/
def runTraceLines (o : FilterOptions) (st : FilterStats) :
    List (InLine TraceEntry) → FilterStats × List TraceEntry
  | [] => (st, [])
  | l :: ls =>
      match traceStep o st l with
      | (st1, none) => runTraceLines o st1 ls
      | (st1, some e) =>
          let r := runTraceLines o st1 ls
          (r.1, e :: r.2)

/-- A serialized object field `"key":value`. -/
def fieldStr (k v : String) : String := quoteStr k ++ ":" ++ v

/-- A serialized compact JSON object from its rendered fields. -/
def objStr (fields : List String) : String :=
  "\x7b" ++ joinSep "," fields ++ "\x7d"

/-- Rendered fields of an optional slot (absent fields are omitted, as
`JSON.stringify` omits missing properties). -/
def optField (k : String) : Option String → List String
  | none => []
  | some v => [fieldStr k v]

/-- Serialization of an embedded dynamic value. -/
def jprimStr : JPrim → String
  | .null => "null"
  | .bool true => "true"
  | .bool false => "false"
  | .num n => ratStr n
  | .str s => quoteStr s

/-- `JSON.stringify(entry, null, 0)` for a trace record (compact, one
line; the embedding fixes a field order, which no claim inspects). -/
def stringifyTraceEntry (e : TraceEntry) : String :=
  objStr (optField "type" (e.type.map jprimStr) ++
    optField "messageType" (e.messageType.map jprimStr) ++
    optField "text" (e.text.map jprimStr) ++
    e.extra.map (fun kv => fieldStr kv.1 (quoteStr kv.2)))

/-- The written trace output: serialized records joined by newlines plus
the explicitly appended trailing newline
(`filteredContent + "\n"` in the source). -/
def traceOutputString (entries : List TraceEntry) : String :=
  joinSep "\n" (entries.map stringifyTraceEntry) ++ "\n"

/-- `PlaywrightTraceFilter.filterTraceFile`: resets the statistics
(discarding the instance's previous state `prev`), records the pre-filter
size, runs the loop, writes the output, records the post-filter size.
Returns the final statistics and the written records. -/
def filterTraceFile (prev : FilterStats) (sizeBefore : Nat)
    (lines : List (InLine TraceEntry)) (o : FilterOptions) :
    FilterStats × List TraceEntry :=
  let _ := prev
  let st0 := { freshFilterStats with sizeBefore := sizeBefore }
  let r := runTraceLines o st0 lines
  ({ r.1 with sizeAfter := (traceOutputString r.2).length }, r.2)

/-- `createFilterPresets`: the three named trace-filter option bundles. -/
def createFilterPresets : List (String × FilterOptions) :=
  [("conservative",
    { filterConsoleLogs := false, removeFrameSnapshots := true,
      removeScreencastFrames := false, removeUIElements := false,
      truncateStackTraces := true }),
   ("minimal",
    { filterConsoleLogs := true, removeFrameSnapshots := true,
      removeScreencastFrames := true, removeUIElements := true,
      truncateStackTraces := true }),
   ("moderate",
    { filterConsoleLogs := false, removeFrameSnapshots := true,
      removeScreencastFrames := true, removeUIElements := true,
      truncateStackTraces := true })]

/-- `filterTraceWithPreset`: preset lookup with the explicit
unknown-preset check (`throw new Error(...)`) before the filter instance
is created and before any file access. -/
def filterTraceWithPreset (prev : FilterStats) (sizeBefore : Nat)
    (lines : List (InLine TraceEntry)) (preset : String) :
    Except String (FilterStats × List TraceEntry) :=
  match createFilterPresets.lookup preset with
  | none => .error ("Unknown preset: " ++ preset)
  | some o => .ok (filterTraceFile prev sizeBefore lines o)

/-! ## Network filter (`NetworkTraceFilter`) -/

/-- Option bundle of the network filter (interface
`NetworkFilterOptions`). -/
structure NetworkFilterOptions where
  filterHeaders : Bool
  reducePrecision : Bool
  removeAnalytics : Bool
  removeBlobUrls : Bool
  removeCloudAnalytics : Bool
  removeContentHashes : Bool
  removeHttpMetadata : Bool
  removeLargeUploads : Bool
  removeMapsApi : Bool
  removeStaticAssets : Bool
  removeThirdPartyWidgets : Bool
  removeTimingDetails : Bool
  simplifyCookies : Bool
  simplifyVerboseFields : Bool
  truncateResponseBodies : Bool
deriving DecidableEq

/-- Statistics record of the network filter (interface
`NetworkFilterStats`). -/
structure NetworkFilterStats where
  keptRequests : Nat
  removedByCategory : List (String × Nat)
  removedRequests : Nat
  sizeAfter : Nat
  sizeBefore : Nat
  totalRequests : Nat
deriving DecidableEq

/-- The field initializer of a fresh `NetworkTraceFilter` instance (the
class never resets these counters afterwards). -/
def initNetworkFilterStats : NetworkFilterStats :=
  { keptRequests := 0, removedByCategory := [], removedRequests := 0,
    sizeAfter := 0, sizeBefore := 0, totalRequests := 0 }

/-- One `{name, value}` header pair. -/
structure Header where
  name : String
  value : String
deriving DecidableEq

/-- One cookie object.  `name`/`value` and the three attributes that
`simplifyCookies` inspects are explicit; all other attributes (`domain`,
`expires`, `secure`, ...) are opaque in `extra`. -/
structure Cookie where
  name : String
  value : String
  path : Option String
  httpOnly : Option Bool
  sameSite : Option String
  extra : List (String × String)
deriving DecidableEq

/-- `request.postData`: the filter only ever deletes its `_sha1` field;
everything else (including any body payload) is opaque in `extra`. -/
structure PostData where
  sha1 : Option String
  extra : List (String × String)
deriving DecidableEq

/-- `response.content`: body metadata.  `_sha1`, `compression` and the
three truncation-marker fields (`_note`, `_originalSize`, `_truncated`)
are explicit because the filter writes or deletes them; any body payload
(for example a `text` property) and other fields are opaque in
`extra` and are never touched. -/
structure Content where
  mimeType : String
  size : Int
  sha1 : Option String
  compression : Option Int
  note : Option String
  originalSize : Option Int
  truncated : Option Bool
  extra : List (String × String)
deriving DecidableEq

/-- `snapshot.request` of a network record. -/
structure NetRequest where
  url : String
  method : String
  headers : List Header
  bodySize : Option JPrim
  httpVersion : Option String
  headersSize : Option JPrim
  cookies : Option (List Cookie)
  postData : Option PostData
  queryString : Option (List String)
  extra : List (String × String)
deriving DecidableEq

/-- `snapshot.response` of a network record. -/
structure NetResponse where
  status : Int
  headers : List Header
  content : Content
  httpVersion : Option String
  headersSize : Option JPrim
  bodySize : Option JPrim
  transferSize : Option JPrim
  cookies : Option (List Cookie)
  redirectURL : Option String
  statusText : Option String
  extra : List (String × String)
deriving DecidableEq

/-- The `snapshot` object of a network record.  The seven fields deleted
by `cleanTimingData` (`_frameref`, `_monotonicTime`, `cache`,
`_transferSize`, `_securityDetails`, `serverIPAddress`, `_serverPort`)
are explicit `Option` slots with opaque values; `timings` is the dynamic
key/value object that `cleanTimingData` and `reducePrecision` inspect. -/
structure Snapshot where
  request : NetRequest
  response : NetResponse
  timings : Option (List (String × JPrim))
  time : Option JPrim
  frameref : Option String
  monotonicTime : Option String
  cache : Option String
  transferSize : Option String
  securityDetails : Option String
  serverIPAddress : Option String
  serverPort : Option String
  extra : List (String × String)
deriving DecidableEq

/-- A network record (interface `NetworkTraceEntry`): `type`, the
`_error`/`_originalLine` fields of synthesized malformed records, the
mandatory `snapshot`, and opaque extras. -/
structure NetworkTraceEntry where
  type : Option String
  error : Option String
  originalLine : Option String
  snapshot : Snapshot
  extra : List (String × String)
deriving DecidableEq

/-- `essentialRequestHeaders` of `NetworkTraceFilter.filterHeaders`. -/
def essentialRequestHeaders : List String :=
  ["authorization", "content-type", "accept", "x-csrf-token",
   "x-requested-with", "origin", "referer"]

/-- `essentialResponseHeaders` of `NetworkTraceFilter.filterHeaders`. -/
def essentialResponseHeaders : List String :=
  ["content-type", "set-cookie", "location", "www-authenticate",
   "x-error", "x-error-message", "access-control-allow-origin"]

/-- The per-header keep predicate of `NetworkTraceFilter.filterHeaders`:
keep essential headers (direction-specific substring match), keep
error/warning-named headers, keep `cookie`/`set-cookie` headers only when
the value mentions auth/session/csrf, drop the rest. -/
def keepHeader (isRequest : Bool) (header : Header) : Bool :=
  let name := lowerStr header.name
  let essentialHeaders :=
    if isRequest then essentialRequestHeaders else essentialResponseHeaders
  if essentialHeaders.any (fun essential => strIncludes name essential) then
    true
  else if strIncludes name "error" || strIncludes name "warning" then
    true
  else if name == "cookie" || name == "set-cookie" then
    let value := lowerStr header.value
    strIncludes value "auth" || strIncludes value "session" ||
      strIncludes value "csrf"
  else false

/-- `NetworkTraceFilter.filterHeaders`. -/
def filterHeaders (headers : List Header) (isRequest : Bool) :
    List Header :=
  headers.filter (keepHeader isRequest)

/-- `NetworkTraceFilter.cleanTimingData`: collapse `timings` to
`{_removed, total}` with `total = wait + receive` (missing or non-number
values default to 0), and delete the seven verbose metadata fields. -/
def cleanTimingData (snapshot : Snapshot) : Snapshot :=
  let timings :=
    match snapshot.timings with
    | none => none
    | some ts =>
        let wait := match ts.lookup "wait" with
          | some (.num n) => n
          | _ => 0
        let receive := match ts.lookup "receive" with
          | some (.num n) => n
          | _ => 0
        some [("_removed", JPrim.str "Detailed timing breakdown removed"),
              ("total", JPrim.num (wait + receive))]
  { snapshot with
    timings := timings, frameref := none, monotonicTime := none,
    cache := none, transferSize := none, securityDetails := none,
    serverIPAddress := none, serverPort := none }

/-- `NetworkTraceFilter.truncateResponseBody`: keep the full content for
error responses (`status >= 400`) and for small truthy sizes
(`content.size && content.size < 1000`); otherwise add the truncation
marker fields on top of the existing content object (the source spreads
`...content`, so every original field — including any body payload —
is retained). -/
def truncateResponseBody (content : Content) (status : Int) : Content :=
  if status ≥ 400 then content
  else if content.size != 0 && content.size < 1000 then content
  else
    { content with
      note := some "Response body truncated for successful request",
      originalSize := some content.size,
      truncated := some true }

/-- `NetworkTraceFilter.simplifyVerboseFields`: drop a present-but-empty
`queryString`, drop `accept-encoding`/`accept-language` request headers
carrying one of the two known default values, drop an empty
`redirectURL`, drop a `statusText` that is exactly `"OK"`. -/
def simplifyVerboseFields (snapshot : Snapshot) : Snapshot :=
  let request := snapshot.request
  let request :=
    { request with
      queryString :=
        match request.queryString with
        | some [] => none
        | other => other,
      headers := request.headers.filter (fun header =>
        let name := lowerStr header.name
        !(["accept-encoding", "accept-language"].contains name) ||
          (header.value != "gzip, deflate, br, zstd" &&
           header.value != "en-US")) }
  let response := snapshot.response
  let response :=
    { response with
      redirectURL :=
        match response.redirectURL with
        | some "" => none
        | other => other,
      statusText :=
        match response.statusText with
        | some "OK" => none
        | other => other }
  { snapshot with request := request, response := response }

/-- `NetworkTraceFilter.removeHttpMetadata`: delete `httpVersion` when it
is exactly `"HTTP/1.1"`, and delete the header/body/transfer size fields
on both sides. -/
def removeHttpMetadata (snapshot : Snapshot) : Snapshot :=
  let request := snapshot.request
  let request :=
    { request with
      httpVersion :=
        match request.httpVersion with
        | some "HTTP/1.1" => none
        | other => other,
      headersSize := none, bodySize := none }
  let response := snapshot.response
  let response :=
    { response with
      httpVersion :=
        match response.httpVersion with
        | some "HTTP/1.1" => none
        | other => other,
      headersSize := none, bodySize := none, transferSize := none }
  { snapshot with request := request, response := response }

/-- The per-cookie simplification of `NetworkTraceFilter.simplifyCookies`:
keep `name`/`value`, keep `path` only when truthy and not `"/"`, keep
`httpOnly` only when truthy, keep `sameSite` only when truthy and not
`"Lax"`; every other attribute is dropped. -/
def simplifyCookie (cookie : Cookie) : Cookie :=
  { name := cookie.name, value := cookie.value,
    path :=
      match cookie.path with
      | some p => if p != "" && p != "/" then some p else none
      | none => none,
    httpOnly :=
      match cookie.httpOnly with
      | some true => some true
      | _ => none,
    sameSite :=
      match cookie.sameSite with
      | some s => if s != "" && s != "Lax" then some s else none
      | none => none,
    extra := [] }

/-- `NetworkTraceFilter.simplifyCookies` applied to both cookie lists. -/
def simplifyCookies (snapshot : Snapshot) : Snapshot :=
  let request := snapshot.request
  let request :=
    { request with cookies := request.cookies.map (·.map simplifyCookie) }
  let response := snapshot.response
  let response :=
    { response with cookies := response.cookies.map (·.map simplifyCookie) }
  { snapshot with request := request, response := response }

/-- `NetworkTraceFilter.removeContentHashes`: delete `content._sha1`,
delete `content.compression` when it is exactly 0, delete
`postData._sha1`. -/
def removeContentHashes (snapshot : Snapshot) : Snapshot :=
  let response := snapshot.response
  let content := response.content
  let content :=
    { content with
      sha1 := none,
      compression :=
        match content.compression with
        | some 0 => none
        | other => other }
  let response := { response with content := content }
  let request := snapshot.request
  let request :=
    { request with
      postData := request.postData.map (fun pd => { pd with sha1 := none }) }
  { snapshot with request := request, response := response }

/-- The integer restriction of `Math.round(x * 100) / 100`. -/
def jsRound2 (n : Int) : Int := n * 100 / 100

/-- `NetworkTraceFilter.reducePrecision`: round a truthy numeric
top-level `time` and every numeric value inside `timings` to two decimal
places. -/
def reducePrecision (snapshot : Snapshot) : Snapshot :=
  let time :=
    match snapshot.time with
    | some (.num n) => if n != 0 then some (JPrim.num (jsRound2 n)) else some (JPrim.num n)
    | other => other
  let timings :=
    snapshot.timings.map (·.map (fun kv =>
      match kv with
      | (k, .num n) => (k, JPrim.num (jsRound2 n))
      | other => other))
  { snapshot with time := time, timings := timings }

/-- `analyticsPatterns` of `shouldRemoveRequest`. -/
def analyticsPatterns : List String :=
  ["px.ads.linkedin.com", "snap.licdn.com", "linkedin.com/px",
   "facebook.com", "connect.facebook.net", "fb.com",
   "googletagmanager.com", "google-analytics.com",
   "analytics.google.com", "google.com/analytics", "doubleclick.net",
   "sentry.io", "browser.sentry-cdn.com", "sentry-cdn.com"]

/-- `cloudAnalyticsPatterns` of `shouldRemoveRequest`. -/
def cloudAnalyticsPatterns : List String :=
  ["user-events-v3.s3-accelerate.amazonaws.com",
   "cognito-identity.us-west-2.amazonaws.com", "google.com/pagead",
   "googleadservices.com", "googlesyndication.com"]

/-- `mapsPatterns` of `shouldRemoveRequest`. -/
def mapsPatterns : List String :=
  ["maps.googleapis.com", "maps.google.com", "earth.google.com"]

/-- `staticCdnPatterns` of `shouldRemoveRequest`. -/
def staticCdnPatterns : List String :=
  ["fonts.googleapis.com", "fonts.gstatic.com", "use.fontawesome.com",
   "cdnjs.cloudflare.com", "cdn.jsdelivr.net", "unpkg.com"]

/-- `staticExtensions` of `shouldRemoveRequest`. -/
def staticExtensions : List String :=
  [".css", ".js", ".woff", ".woff2", ".ttf", ".eot", ".png", ".jpg",
   ".jpeg", ".gif", ".svg", ".ico", ".mp4", ".webm", ".mp3", ".wav"]

/-- `widgetPatterns` of `shouldRemoveRequest`. -/
def widgetPatterns : List String :=
  ["intercom.io", "js.intercomcdn.com", "widget.intercom.io",
   "snippet.meticulous.ai", "hotjar.com", "zendesk.com", "drift.com",
   "crisp.chat", "tawk.to"]

/-- `list[0]` on a split result (`split` never returns an empty array,
so the JavaScript index is always defined). -/
def headOrEmpty : List String → String
  | [] => ""
  | s :: _ => s

/-- `entry.snapshot?.request?.url || ""` (`snapshot` and `request` are
mandatory in the embedding; on a string the `|| ""` default is the
identity, since the only falsy string is `""` itself). -/
def requestUrl (entry : NetworkTraceEntry) : String :=
  entry.snapshot.request.url

/-- The large-upload test of `shouldRemoveRequest`:
`typeof bodySize === "number" && bodySize > 100000`. -/
def isLargeUpload (entry : NetworkTraceEntry) : Bool :=
  match entry.snapshot.request.bodySize with
  | some (.num n) => n > 100000
  | _ => false

/-- `NetworkTraceFilter.shouldRemoveRequest`: the fixed whole-record
removal chain, returning the category of the first matching enabled rule
(`none` = keep).  Order: analytics, cloud-analytics, maps-api, blob-url,
large-upload, static-cdn, static-asset, third-party-widget.  Pattern
matching is substring containment against the lowercased URL, except the
`blob:` test, which the source applies to the original URL. -/
def shouldRemoveRequest (entry : NetworkTraceEntry)
    (options : NetworkFilterOptions) : Option String :=
  let url := requestUrl entry
  let urlLower := lowerStr url
  if options.removeAnalytics &&
      analyticsPatterns.any (fun pattern => strIncludes urlLower pattern) then
    some "analytics"
  else if options.removeCloudAnalytics &&
      cloudAnalyticsPatterns.any (fun pattern => strIncludes urlLower pattern) then
    some "cloud-analytics"
  else if options.removeMapsApi &&
      mapsPatterns.any (fun pattern => strIncludes urlLower pattern) then
    some "maps-api"
  else if options.removeBlobUrls && strStartsWith url "blob:" then
    some "blob-url"
  else if options.removeLargeUploads && isLargeUpload entry then
    some "large-upload"
  else if options.removeStaticAssets &&
      staticCdnPatterns.any (fun pattern => strIncludes urlLower pattern) then
    some "static-cdn"
  else if options.removeStaticAssets &&
      staticExtensions.any (fun ext =>
        strEndsWith (headOrEmpty (splitStr '?' url)) ext) then
    some "static-asset"
  else if options.removeThirdPartyWidgets &&
      widgetPatterns.any (fun pattern => strIncludes urlLower pattern) then
    some "third-party-widget"
  else none

/-- The header-filtering step of `filterEntry` (both directions). -/
def applyFilterHeaders (s : Snapshot) : Snapshot :=
  { s with
    request := { s.request with
                 headers := filterHeaders s.request.headers true },
    response := { s.response with
                  headers := filterHeaders s.response.headers false } }

/-- The response-body-truncation step of `filterEntry`. -/
def applyTruncate (s : Snapshot) : Snapshot :=
  { s with
    response := { s.response with
                  content := truncateResponseBody s.response.content
                    s.response.status } }

/-- One toggle-gated transformation step of `filterEntry`. -/
def transformStep (cond : Bool) (f : Snapshot → Snapshot)
    (s : Snapshot) : Snapshot :=
  if cond then f s else s

/-- The keep-path transformation chain of `NetworkTraceFilter.filterEntry`
applied to the snapshot: header filtering, timing cleanup, response-body
truncation, verbose-field simplification, HTTP-metadata removal, cookie
simplification, content-hash removal, precision reduction — in the
source's order, each gated by its toggle. -/
def transformSnapshot (o : NetworkFilterOptions) (s : Snapshot) :
    Snapshot :=
  transformStep o.reducePrecision reducePrecision
    (transformStep o.removeContentHashes removeContentHashes
      (transformStep o.simplifyCookies simplifyCookies
        (transformStep o.removeHttpMetadata removeHttpMetadata
          (transformStep o.simplifyVerboseFields simplifyVerboseFields
            (transformStep o.truncateResponseBodies applyTruncate
              (transformStep o.removeTimingDetails cleanTimingData
                (transformStep o.filterHeaders applyFilterHeaders s)))))))

/-- The keep-path transformation chain of `NetworkTraceFilter.filterEntry`
(the source applies it to a deep copy of the entry; a deep copy is the
identity in the embedding). -/
def transformEntry (entry : NetworkTraceEntry)
    (options : NetworkFilterOptions) : NetworkTraceEntry :=
  { entry with snapshot := transformSnapshot options entry.snapshot }

/-- `NetworkTraceFilter.filterEntry`: on a removal match, update the
removal statistics and drop the record; otherwise count it kept and
apply the transformation chain. -/
def filterEntry (st : NetworkFilterStats) (entry : NetworkTraceEntry)
    (options : NetworkFilterOptions) :
    NetworkFilterStats × Option NetworkTraceEntry :=
  match shouldRemoveRequest entry options with
  | some category =>
      ({ st with
         removedRequests := st.removedRequests + 1,
         removedByCategory := bump st.removedByCategory category }, none)
  | none => ({ st with keptRequests := st.keptRequests + 1 },
             some (transformEntry entry options))

/-- The record synthesized for a line whose processing throws inside the
per-line `try` of `filterNetworkTrace` (a `JSON.parse` failure, or — when
the options bundle is undefined — the `TypeError` thrown by the first
option access): `{_error, _originalLine, snapshot: placeholder, type:
"malformed"}`. -/
def mkMalformedNet (raw err : String) : NetworkTraceEntry :=
  { type := some "malformed", error := some err, originalLine := some raw,
    snapshot :=
      { request :=
          { url := "MALFORMED", method := "UNKNOWN", headers := [],
            bodySize := none, httpVersion := none, headersSize := none,
            cookies := none, postData := none, queryString := none,
            extra := [] },
        response :=
          { status := 0, headers := [],
            content :=
              { mimeType := "", size := 0, sha1 := none,
                compression := none, note := none, originalSize := none,
                truncated := none, extra := [] },
            httpVersion := none, headersSize := none, bodySize := none,
            transferSize := none, cookies := none, redirectURL := none,
            statusText := none, extra := [] },
        timings := none, time := none, frameref := none,
        monotonicTime := none, cache := none, transferSize := none,
        securityDetails := none, serverIPAddress := none,
        serverPort := none, extra := [] },
    extra := [] }

/-- The message of the `TypeError` raised (and caught per line) when the
options bundle is `undefined` — the preset-lookup miss of
`filterNetworkTraceWithPreset`. -/
def undefinedOptionsError : String :=
  "TypeError: Cannot read properties of undefined (reading 'removeAnalytics')"

/-- One loop iteration of `filterNetworkTrace`: blank lines are skipped
(counted in neither kept nor removed); a line whose processing throws is
replaced by a synthesized malformed record; otherwise `filterEntry`
decides.  When `options` is `none` (undefined), the first option access
inside `filterEntry` throws, the per-line `catch` swallows it, and the
parsed line also degrades to a malformed record. -/
def netStep (options : Option NetworkFilterOptions)
    (st : NetworkFilterStats) :
    InLine NetworkTraceEntry →
      NetworkFilterStats × Option NetworkTraceEntry
  | .blank => (st, none)
  | .bad raw err => (st, some (mkMalformedNet raw err))
  | .good raw e =>
      match options with
      | none => (st, some (mkMalformedNet raw undefinedOptionsError))
      | some opts => filterEntry st e opts

/-- The whole per-line loop of `filterNetworkTrace`, threading the
statistics and collecting the surviving records in input order. -/
def runNetLines (options : Option NetworkFilterOptions)
    (st : NetworkFilterStats) :
    List (InLine NetworkTraceEntry) →
      NetworkFilterStats × List NetworkTraceEntry
  | [] => (st, [])
  | l :: ls =>
      match netStep options st l with
      | (st1, none) => runNetLines options st1 ls
      | (st1, some e) =>
          let r := runNetLines options st1 ls
          (r.1, e :: r.2)

/-- A serialized compact JSON array from its rendered elements. -/
def arrStr (elems : List String) : String :=
  "[" ++ joinSep "," elems ++ "]"

/-- Serialization of a header pair. -/
def stringifyHeader (h : Header) : String :=
  objStr [fieldStr "name" (quoteStr h.name),
          fieldStr "value" (quoteStr h.value)]

/-- Serialization of a cookie. -/
def stringifyCookie (c : Cookie) : String :=
  objStr ([fieldStr "name" (quoteStr c.name),
           fieldStr "value" (quoteStr c.value)] ++
    optField "path" (c.path.map quoteStr) ++
    optField "httpOnly" (c.httpOnly.map (fun b => jprimStr (.bool b))) ++
    optField "sameSite" (c.sameSite.map quoteStr) ++
    c.extra.map (fun kv => fieldStr kv.1 (quoteStr kv.2)))

/-- Serialization of `request.postData`. -/
def stringifyPostData (pd : PostData) : String :=
  objStr (optField "_sha1" (pd.sha1.map quoteStr) ++
    pd.extra.map (fun kv => fieldStr kv.1 (quoteStr kv.2)))

/-- Serialization of `response.content`. -/
def stringifyContent (c : Content) : String :=
  objStr ([fieldStr "mimeType" (quoteStr c.mimeType),
           fieldStr "size" (ratStr c.size)] ++
    optField "_sha1" (c.sha1.map quoteStr) ++
    optField "compression" (c.compression.map ratStr) ++
    optField "_note" (c.note.map quoteStr) ++
    optField "_originalSize" (c.originalSize.map ratStr) ++
    optField "_truncated" (c.truncated.map (fun b => jprimStr (.bool b))) ++
    c.extra.map (fun kv => fieldStr kv.1 (quoteStr kv.2)))

/-- Serialization of `snapshot.request`. -/
def stringifyRequest (r : NetRequest) : String :=
  objStr ([fieldStr "url" (quoteStr r.url),
           fieldStr "method" (quoteStr r.method),
           fieldStr "headers" (arrStr (r.headers.map stringifyHeader))] ++
    optField "bodySize" (r.bodySize.map jprimStr) ++
    optField "httpVersion" (r.httpVersion.map quoteStr) ++
    optField "headersSize" (r.headersSize.map jprimStr) ++
    optField "cookies"
      (r.cookies.map (fun cs => arrStr (cs.map stringifyCookie))) ++
    optField "postData" (r.postData.map stringifyPostData) ++
    optField "queryString"
      (r.queryString.map (fun qs => arrStr (qs.map quoteStr))) ++
    r.extra.map (fun kv => fieldStr kv.1 (quoteStr kv.2)))

/-- Serialization of `snapshot.response`. -/
def stringifyResponse (r : NetResponse) : String :=
  objStr ([fieldStr "status" (ratStr r.status),
           fieldStr "headers" (arrStr (r.headers.map stringifyHeader)),
           fieldStr "content" (stringifyContent r.content)] ++
    optField "httpVersion" (r.httpVersion.map quoteStr) ++
    optField "headersSize" (r.headersSize.map jprimStr) ++
    optField "bodySize" (r.bodySize.map jprimStr) ++
    optField "_transferSize" (r.transferSize.map jprimStr) ++
    optField "cookies"
      (r.cookies.map (fun cs => arrStr (cs.map stringifyCookie))) ++
    optField "redirectURL" (r.redirectURL.map quoteStr) ++
    optField "statusText" (r.statusText.map quoteStr) ++
    r.extra.map (fun kv => fieldStr kv.1 (quoteStr kv.2)))

/-- Serialization of the `timings` object. -/
def stringifyTimings (ts : List (String × JPrim)) : String :=
  objStr (ts.map (fun kv => fieldStr kv.1 (jprimStr kv.2)))

/-- Serialization of a snapshot. -/
def stringifySnapshot (s : Snapshot) : String :=
  objStr ([fieldStr "request" (stringifyRequest s.request),
           fieldStr "response" (stringifyResponse s.response)] ++
    optField "timings" (s.timings.map stringifyTimings) ++
    optField "time" (s.time.map jprimStr) ++
    optField "_frameref" (s.frameref.map quoteStr) ++
    optField "_monotonicTime" (s.monotonicTime.map quoteStr) ++
    optField "cache" (s.cache.map quoteStr) ++
    optField "_transferSize" (s.transferSize.map quoteStr) ++
    optField "_securityDetails" (s.securityDetails.map quoteStr) ++
    optField "serverIPAddress" (s.serverIPAddress.map quoteStr) ++
    optField "_serverPort" (s.serverPort.map quoteStr) ++
    s.extra.map (fun kv => fieldStr kv.1 (quoteStr kv.2)))

/-- `JSON.stringify(entry)` for a network record (compact, one line; the
embedding fixes a field order, which no claim inspects). -/
def stringifyNetEntry (e : NetworkTraceEntry) : String :=
  objStr (optField "_error" (e.error.map quoteStr) ++
    optField "_originalLine" (e.originalLine.map quoteStr) ++
    [fieldStr "snapshot" (stringifySnapshot e.snapshot)] ++
    optField "type" (e.type.map quoteStr) ++
    e.extra.map (fun kv => fieldStr kv.1 (quoteStr kv.2)))

/-- The written network output: serialized records joined by newlines.
Unlike the trace filter, the source appends no trailing newline
(`filteredEntries.map(JSON.stringify).join("\n")` written as-is). -/
def netOutputString (entries : List NetworkTraceEntry) : String :=
  joinSep "\n" (entries.map stringifyNetEntry)

/-- `NetworkTraceFilter.filterNetworkTrace`: records the input length as
`sizeBefore`, assigns `totalRequests = lines.length` (counting blank and
malformed lines), runs the loop — note that the kept/removed counters
and the category map are NOT reset and keep accumulating on top of the
instance state `prev` — and finally assigns `sizeAfter`. -/
def filterNetworkTrace (prev : NetworkFilterStats) (sizeBefore : Nat)
    (lines : List (InLine NetworkTraceEntry))
    (options : Option NetworkFilterOptions) :
    NetworkFilterStats × List NetworkTraceEntry :=
  let st0 := { prev with sizeBefore := sizeBefore,
                         totalRequests := lines.length }
  let r := runNetLines options st0 lines
  ({ r.1 with sizeAfter := (netOutputString r.2).length }, r.2)

/-- The `presets` table of `filterNetworkTraceWithPreset`. -/
def networkPresets : List (String × NetworkFilterOptions) :=
  [("conservative",
    { filterHeaders := true, reducePrecision := false,
      removeAnalytics := true, removeBlobUrls := false,
      removeCloudAnalytics := false, removeContentHashes := false,
      removeHttpMetadata := false, removeLargeUploads := false,
      removeMapsApi := false, removeStaticAssets := false,
      removeThirdPartyWidgets := false, removeTimingDetails := false,
      simplifyCookies := false, simplifyVerboseFields := false,
      truncateResponseBodies := false }),
   ("minimal",
    { filterHeaders := true, reducePrecision := true,
      removeAnalytics := true, removeBlobUrls := true,
      removeCloudAnalytics := true, removeContentHashes := true,
      removeHttpMetadata := true, removeLargeUploads := true,
      removeMapsApi := true, removeStaticAssets := true,
      removeThirdPartyWidgets := true, removeTimingDetails := true,
      simplifyCookies := true, simplifyVerboseFields := true,
      truncateResponseBodies := true }),
   ("moderate",
    { filterHeaders := true, reducePrecision := false,
      removeAnalytics := true, removeBlobUrls := true,
      removeCloudAnalytics := true, removeContentHashes := false,
      removeHttpMetadata := false, removeLargeUploads := false,
      removeMapsApi := false, removeStaticAssets := true,
      removeThirdPartyWidgets := true, removeTimingDetails := false,
      simplifyCookies := false, simplifyVerboseFields := false,
      truncateResponseBodies := true })]

/-- `filterNetworkTraceWithPreset`: the preset lookup `presets[preset]`
is passed straight to `filterNetworkTrace` with NO unknown-name check —
an unrecognized name yields an undefined (`none`) options bundle and the
run still proceeds. -/
def filterNetworkTraceWithPreset (prev : NetworkFilterStats)
    (sizeBefore : Nat) (lines : List (InLine NetworkTraceEntry))
    (preset : String) : NetworkFilterStats × List NetworkTraceEntry :=
  filterNetworkTrace prev sizeBefore lines (networkPresets.lookup preset)

/-! ## Run-loop characterization -/

/-- The record (if any) a given input line contributes to the output of
the trace loop; the contribution does not depend on the statistics. -/
def traceLineOut (o : FilterOptions) :
    InLine TraceEntry → Option TraceEntry
  | .blank => none
  | .bad raw err => some (mkMalformedTrace raw err)
  | .good _ e =>
      match shouldRemoveEntry e o with
      | (some _, _) => none
      | (none, kept) => some kept

/-- The removal categories the trace loop attributes, in input order. -/
def traceRemovedCats (o : FilterOptions)
    (ls : List (InLine TraceEntry)) : List String :=
  ls.filterMap (fun l =>
    match l with
    | .good _ e => (shouldRemoveEntry e o).1
    | _ => none)

/-- The record (if any) a given input line contributes to the output of
the network loop. -/
def netLineOut (options : Option NetworkFilterOptions) :
    InLine NetworkTraceEntry → Option NetworkTraceEntry
  | .blank => none
  | .bad raw err => some (mkMalformedNet raw err)
  | .good raw e =>
      match options with
      | none => some (mkMalformedNet raw undefinedOptionsError)
      | some opts =>
          match shouldRemoveRequest e opts with
          | some _ => none
          | none => some (transformEntry e opts)

/-- The removal categories the network loop attributes, in input order. -/
def netRemovedCats (options : Option NetworkFilterOptions)
    (ls : List (InLine NetworkTraceEntry)) : List String :=
  ls.filterMap (fun l =>
    match l, options with
    | .good _ e, some opts => shouldRemoveRequest e opts
    | _, _ => none)

/-- The number of requests the network loop counts as kept. -/
def netKeptCount (options : Option NetworkFilterOptions)
    (ls : List (InLine NetworkTraceEntry)) : Nat :=
  ls.countP (fun l =>
    match l, options with
    | .good _ e, some opts => (shouldRemoveRequest e opts).isNone
    | _, _ => false)

/-! ## First-match rule-list refinement -/

/-- First matching rule of an ordered (category, predicate) list — the
specification's "ordered list of (predicate, category-label) pairs
evaluated in fixed order, returning the first match". -/
def firstMatch {α : Type} (rules : List (String × (α → Bool))) (x : α) :
    Option String :=
  (rules.find? (fun r => r.2 x)).map Prod.fst

/-- The documented trace removal rules, in priority order:
frame-snapshot, screencast-frame, console-verbose, ui-elements. -/
def traceRuleList (o : FilterOptions) :
    List (String × (TraceEntry → Bool)) :=
  [("frame-snapshot", fun e =>
      o.removeFrameSnapshots &&
        (jsOr e.type (.str "") == JPrim.str "frame-snapshot")),
   ("screencast-frame", fun e =>
      o.removeScreencastFrames &&
        (jsOr e.type (.str "") == JPrim.str "screencast-frame")),
   ("console-verbose", fun e =>
      o.filterConsoleLogs && (jsOr e.type (.str "") == JPrim.str "console") &&
        ["info", "log"].contains (jsToString (jsOr e.messageType (.str ""))) &&
        !(isImportantConsoleLog e)),
   ("ui-elements", fun e =>
      o.removeUIElements &&
        (uiElementTypes.map JPrim.str).contains (jsOr e.type (.str "")))]

/-- The documented network removal rules, in priority order: analytics,
cloud-analytics, maps-api, blob-url, large-upload, static-cdn,
static-asset, third-party-widget. -/
def netRuleList (o : NetworkFilterOptions) :
    List (String × (NetworkTraceEntry → Bool)) :=
  [("analytics", fun e =>
      o.removeAnalytics && analyticsPatterns.any (fun pattern =>
        strIncludes (lowerStr (requestUrl e)) pattern)),
   ("cloud-analytics", fun e =>
      o.removeCloudAnalytics && cloudAnalyticsPatterns.any (fun pattern =>
        strIncludes (lowerStr (requestUrl e)) pattern)),
   ("maps-api", fun e =>
      o.removeMapsApi && mapsPatterns.any (fun pattern =>
        strIncludes (lowerStr (requestUrl e)) pattern)),
   ("blob-url", fun e =>
      o.removeBlobUrls && strStartsWith (requestUrl e) "blob:"),
   ("large-upload", fun e => o.removeLargeUploads && isLargeUpload e),
   ("static-cdn", fun e =>
      o.removeStaticAssets && staticCdnPatterns.any (fun pattern =>
        strIncludes (lowerStr (requestUrl e)) pattern)),
   ("static-asset", fun e =>
      o.removeStaticAssets && staticExtensions.any (fun ext =>
        strEndsWith (headOrEmpty (splitStr '?' (requestUrl e))) ext)),
   ("third-party-widget", fun e =>
      o.removeThirdPartyWidgets && widgetPatterns.any (fun pattern =>
        strIncludes (lowerStr (requestUrl e)) pattern))]

/-! ## Character-level structure of joined/split line content -/

/-- Character-level counterpart of `joinSep` with a one-character
separator. -/
def joinCh (sep : Char) : List (List Char) → List Char
  | [] => []
  | [p] => p
  | p :: p2 :: ps => p ++ sep :: joinCh sep (p2 :: ps)

/-- The lines of a long, stack-trace-shaped console text: ten `z` lines,
one `error` line, 700 stack-frame lines, five `z` lines. -/
def bigTracePieces : List String :=
  List.replicate 10 "z" ++ ["error"] ++
    List.replicate 700 "    at f" ++ List.replicate 5 "z"

/-- A 6335-character console text whose only importance keyword sits in
the middle section that stack-trace truncation cuts out. -/
def bigText : String := joinSep "\n" bigTracePieces

/-- A console record carrying `bigText`. -/
def bigEntry : TraceEntry :=
  { type := some (.str "console"), messageType := some (.str "log"),
    text := some (.str bigText), extra := [] }

/-- The `minimal` trace preset's option bundle. -/
def minimalTraceOptions : FilterOptions :=
  { filterConsoleLogs := true, removeFrameSnapshots := true,
    removeScreencastFrames := true, removeUIElements := true,
    truncateStackTraces := true }

/-- What stack-trace truncation leaves of `bigText`. -/
def truncatedBigText : String :=
  joinSep "\n" (List.replicate 10 "z" ++ [truncMarker] ++
    List.replicate 5 "z")

/-- `bigEntry` after truncation. -/
def truncBigEntry : TraceEntry :=
  { bigEntry with text := some (.str truncatedBigText) }

/-- A 5109-character console text that contains the stack-frame pattern
but splits into only two lines. -/
def flatText : String :=
  String.mk (List.replicate 5100 'a' ++ ("\n    at f" : String).data)

/-- A console record carrying `flatText`. -/
def flatEntry : TraceEntry :=
  { type := some (.str "console"), messageType := none,
    text := some (.str flatText), extra := [] }

/-- An option bundle enabling only stack-trace truncation. -/
def truncOnlyOptions : FilterOptions :=
  { filterConsoleLogs := false, removeFrameSnapshots := false,
    removeScreencastFrames := false, removeUIElements := false,
    truncateStackTraces := true }

/-! ## Concrete sample records -/

/-- A kept localhost API request's response content, carrying a body
payload in its opaque fields. -/
def sampleContent : Content :=
  { mimeType := "text/html", size := 50000, sha1 := none,
    compression := none, note := none, originalSize := none,
    truncated := none, extra := [("text", "PAYLOAD")] }

/-- A content object with an empty (size-0) body. -/
def zeroSizeContent : Content :=
  { mimeType := "application/json", size := 0, sha1 := none,
    compression := none, note := none, originalSize := none,
    truncated := none, extra := [] }

/-- A small (10-byte) content object. -/
def smallContent : Content :=
  { mimeType := "application/json", size := 10, sha1 := none,
    compression := none, note := none, originalSize := none,
    truncated := none, extra := [] }

/-- A kept localhost API request. -/
def sampleRequest : NetRequest :=
  { url := "http://localhost:3000/api/login", method := "GET",
    headers := [], bodySize := none, httpVersion := none,
    headersSize := none, cookies := none, postData := none,
    queryString := none, extra := [] }

/-- Its 200 response. -/
def sampleResponse : NetResponse :=
  { status := 200, headers := [], content := sampleContent,
    httpVersion := none, headersSize := none, bodySize := none,
    transferSize := none, cookies := none, redirectURL := none,
    statusText := none, extra := [] }

/-- Its snapshot. -/
def sampleSnapshot : Snapshot :=
  { request := sampleRequest, response := sampleResponse,
    timings := none, time := none, frameref := none,
    monotonicTime := none, cache := none, transferSize := none,
    securityDetails := none, serverIPAddress := none, serverPort := none,
    extra := [] }

/-- A kept network record. -/
def sampleNetEntry : NetworkTraceEntry :=
  { type := none, error := none, originalLine := none,
    snapshot := sampleSnapshot, extra := [] }

/-- A network record whose URL matches the analytics pattern list. -/
def analyticsNetEntry : NetworkTraceEntry :=
  { sampleNetEntry with
    snapshot := { sampleSnapshot with
      request := { sampleRequest with
        url := "https://connect.facebook.net/en_US/fbevents.js" } } }

/-- The `conservative` network preset's option bundle. -/
def conservativeNetOptions : NetworkFilterOptions :=
  { filterHeaders := true, reducePrecision := false,
    removeAnalytics := true, removeBlobUrls := false,
    removeCloudAnalytics := false, removeContentHashes := false,
    removeHttpMetadata := false, removeLargeUploads := false,
    removeMapsApi := false, removeStaticAssets := false,
    removeThirdPartyWidgets := false, removeTimingDetails := false,
    simplifyCookies := false, simplifyVerboseFields := false,
    truncateResponseBodies := false }

/-- The `conservative` trace preset's option bundle. -/
def conservativeTraceOptions : FilterOptions :=
  { filterConsoleLogs := false, removeFrameSnapshots := true,
    removeScreencastFrames := false, removeUIElements := false,
    truncateStackTraces := true }

/-- A trace record of type `frame-snapshot`. -/
def frameEntry : TraceEntry :=
  { type := some (.str "frame-snapshot"), messageType := none,
    text := none, extra := [("html", "big dom")] }

/-! ## Generic lemmas: counter objects -/

theorem sumVals_bump (m : List (String × Nat)) (k : String) :
    sumVals (bump m k) = sumVals m + 1 := by
  induction m with
  | nil => simp [bump, sumVals]
  | cons kv rest ih =>
      obtain ⟨k1, n⟩ := kv
      by_cases h : k1 = k
      · subst h
        simp only [bump, eq_self_iff_true, if_true, sumVals,
          List.map_cons, List.sum_cons]
        omega
      · simp only [bump, if_neg h, sumVals, List.map_cons, List.sum_cons] at ih ⊢
        omega

theorem lookupCount_cons (k1 : String) (n : Nat)
    (rest : List (String × Nat)) (k2 : String) :
    lookupCount ((k1, n) :: rest) k2 =
      if k2 = k1 then n else lookupCount rest k2 := by
  by_cases h : k2 = k1
  · subst h
    simp [lookupCount, List.lookup]
  · have hb : (k2 == k1) = false := beq_eq_false_iff_ne.mpr h
    simp [lookupCount, List.lookup, hb, h]

theorem lookupCount_bump (m : List (String × Nat)) (k k2 : String) :
    lookupCount (bump m k) k2 =
      lookupCount m k2 + (if k = k2 then 1 else 0) := by
  induction m with
  | nil =>
      rw [show bump [] k = [(k, 1)] from rfl, lookupCount_cons]
      by_cases h : k2 = k
      · subst h
        simp [lookupCount]
      · have h2 : ¬ k = k2 := fun hh => h hh.symm
        simp [h, h2, lookupCount, List.lookup]
  | cons kv rest ih =>
      obtain ⟨k1, n⟩ := kv
      by_cases h1 : k1 = k
      · subst h1
        simp only [bump, eq_self_iff_true, if_true]
        rw [lookupCount_cons, lookupCount_cons]
        by_cases h2 : k2 = k1
        · subst h2
          simp
        · have h3 : ¬ k1 = k2 := fun hh => h2 hh.symm
          simp [h2, h3]
      · simp only [bump, if_neg h1]
        rw [lookupCount_cons, lookupCount_cons]
        by_cases h2 : k2 = k1
        · subst h2
          have h3 : ¬ k = k2 := fun hh => h1 hh.symm
          simp [h3]
        · simp [h2, ih]

theorem sumVals_foldl_bump (cats : List String)
    (m : List (String × Nat)) :
    sumVals (cats.foldl bump m) = sumVals m + cats.length := by
  induction cats generalizing m with
  | nil => simp
  | cons c rest ih =>
      simp only [List.foldl_cons, ih, sumVals_bump, List.length_cons]
      omega

theorem lookupCount_foldl_bump (cats : List String)
    (m : List (String × Nat)) (k : String) :
    lookupCount (cats.foldl bump m) k =
      lookupCount m k + cats.count k := by
  induction cats generalizing m with
  | nil => simp
  | cons c rest ih =>
      simp only [List.foldl_cons, ih, lookupCount_bump, List.count_cons,
        beq_iff_eq]
      by_cases h : c = k
      · simp [h]
        omega
      · simp [h]

/-- Full characterization of the trace loop: the final statistics in
terms of the input counts, and the output as an order-preserving
per-line `filterMap`. -/
theorem runTraceLines_spec (o : FilterOptions) (st : FilterStats)
    (ls : List (InLine TraceEntry)) :
    runTraceLines o st ls =
      ({ st with
         totalEntries := st.totalEntries + countGood ls,
         removedEntries :=
           st.removedEntries + (traceRemovedCats o ls).length,
         removedByType :=
           (traceRemovedCats o ls).foldl bump st.removedByType },
       ls.filterMap (traceLineOut o)) := by
  induction ls generalizing st with
  | nil => simp [runTraceLines, countGood, traceRemovedCats]
  | cons l ls ih =>
      cases l with
      | blank =>
          simp [runTraceLines, traceStep, ih, countGood, traceRemovedCats,
            traceLineOut, List.countP_cons]
      | bad raw err =>
          simp [runTraceLines, traceStep, ih, countGood, traceRemovedCats,
            traceLineOut, List.countP_cons]
      | good raw e =>
          rcases h : shouldRemoveEntry e o with ⟨cat, kept⟩
          cases cat with
          | none =>
              simp only [runTraceLines, traceStep, h, ih, countGood,
                traceRemovedCats, traceLineOut, List.filterMap_cons,
                List.countP_cons]
              simp [countGood, traceRemovedCats, Nat.add_assoc,
                Nat.add_comm 1]
          | some c =>
              simp only [runTraceLines, traceStep, h, ih, countGood,
                traceRemovedCats, traceLineOut, List.filterMap_cons,
                List.countP_cons]
              simp [countGood, traceRemovedCats, Nat.add_assoc,
                Nat.add_comm 1]

/-- Full characterization of the network loop: the final statistics in
terms of the input counts, and the output as an order-preserving
per-line `filterMap`. -/
theorem runNetLines_spec (options : Option NetworkFilterOptions)
    (st : NetworkFilterStats) (ls : List (InLine NetworkTraceEntry)) :
    runNetLines options st ls =
      ({ st with
         keptRequests := st.keptRequests + netKeptCount options ls,
         removedRequests :=
           st.removedRequests + (netRemovedCats options ls).length,
         removedByCategory :=
           (netRemovedCats options ls).foldl bump st.removedByCategory },
       ls.filterMap (netLineOut options)) := by
  induction ls generalizing st with
  | nil => simp [runNetLines, netKeptCount, netRemovedCats]
  | cons l ls ih =>
      cases l with
      | blank =>
          cases options <;>
            simp [runNetLines, netStep, ih, netKeptCount, netRemovedCats,
              netLineOut, List.countP_cons]
      | bad raw err =>
          cases options <;>
            simp [runNetLines, netStep, ih, netKeptCount, netRemovedCats,
              netLineOut, List.countP_cons]
      | good raw e =>
          cases options with
          | none =>
              simp [runNetLines, netStep, ih, netKeptCount, netRemovedCats,
                netLineOut, List.countP_cons]
          | some opts =>
              rcases h : shouldRemoveRequest e opts with _ | c
              · simp only [runNetLines, netStep, filterEntry, h, ih,
                  List.filterMap_cons]
                simp [netKeptCount, netRemovedCats, netLineOut, h,
                  List.countP_cons, Nat.add_assoc, Nat.add_comm 1]
              · simp only [runNetLines, netStep, filterEntry, h, ih,
                  List.filterMap_cons]
                simp [netKeptCount, netRemovedCats, netLineOut, h,
                  List.countP_cons, Nat.add_assoc, Nat.add_comm 1]

theorem shouldRemoveEntry_firstMatch (e : TraceEntry) (o : FilterOptions) :
    (shouldRemoveEntry e o).1 = firstMatch (traceRuleList o) e := by
  simp only [shouldRemoveEntry, firstMatch, traceRuleList, List.find?]
  cases h1 : (o.removeFrameSnapshots &&
      (jsOr e.type (.str "") == JPrim.str "frame-snapshot"))
  · cases h2 : (o.removeScreencastFrames &&
        (jsOr e.type (.str "") == JPrim.str "screencast-frame"))
    · cases h3 : (o.filterConsoleLogs &&
          (jsOr e.type (.str "") == JPrim.str "console") &&
          ["info", "log"].contains
            (jsToString (jsOr e.messageType (.str ""))) &&
          !(isImportantConsoleLog e))
      · cases h4 : (o.removeUIElements &&
            (uiElementTypes.map JPrim.str).contains (jsOr e.type (.str "")))
        · cases h5 : (o.truncateStackTraces &&
              (jsOr e.type (.str "") == JPrim.str "console"))
          · simp
          · rcases e.text with _ | t
            · simp
            · cases t <;> simp
              split_ifs <;> rfl
        · simp
      · simp
    · simp
  · simp

theorem shouldRemoveRequest_firstMatch (e : NetworkTraceEntry)
    (o : NetworkFilterOptions) :
    shouldRemoveRequest e o = firstMatch (netRuleList o) e := by
  simp only [shouldRemoveRequest, firstMatch, netRuleList, List.find?]
  cases h1 : (o.removeAnalytics && analyticsPatterns.any (fun pattern =>
      strIncludes (lowerStr (requestUrl e)) pattern))
  · cases h2 : (o.removeCloudAnalytics &&
        cloudAnalyticsPatterns.any (fun pattern =>
          strIncludes (lowerStr (requestUrl e)) pattern))
    · cases h3 : (o.removeMapsApi && mapsPatterns.any (fun pattern =>
          strIncludes (lowerStr (requestUrl e)) pattern))
      · cases h4 : (o.removeBlobUrls &&
            strStartsWith (requestUrl e) "blob:")
        · cases h5 : (o.removeLargeUploads && isLargeUpload e)
          · cases h6 : (o.removeStaticAssets &&
                staticCdnPatterns.any (fun pattern =>
                  strIncludes (lowerStr (requestUrl e)) pattern))
            · cases h7 : (o.removeStaticAssets &&
                  staticExtensions.any (fun ext =>
                    strEndsWith (headOrEmpty (splitStr '?' (requestUrl e)))
                      ext))
              · cases h8 : (o.removeThirdPartyWidgets &&
                    widgetPatterns.any (fun pattern =>
                      strIncludes (lowerStr (requestUrl e)) pattern))
                · simp
                · simp
              · simp
            · simp
          · simp
        · simp
      · simp
    · simp
  · simp

theorem joinSep_data (c : Char) (ss : List String) :
    (joinSep (String.mk [c]) ss).data = joinCh c (ss.map String.data) := by
  induction ss with
  | nil => rfl
  | cons s rest ih =>
      cases rest with
      | nil => rfl
      | cons s2 rest2 =>
          simp only [joinSep, joinCh, List.map_cons] at ih ⊢
          rw [String.data_append, String.data_append, ih]
          simp

theorem chLead_append_self (l t : List Char) : chLead l (l ++ t) = true := by
  induction l with
  | nil => rfl
  | cons c rest ih => simp [chLead, ih]

theorem chSub_sandwich (n a b : List Char) :
    chSub n (a ++ (n ++ b)) = true := by
  induction a with
  | nil =>
      simp only [List.nil_append]
      have h := chLead_append_self n b
      cases hn : n ++ b with
      | nil =>
          have hn2 : n = [] := by
            rcases List.append_eq_nil.mp hn with ⟨h1, _⟩
            exact h1
          rw [hn2]
          rfl
      | cons x rest =>
          rw [hn] at h
          simp [chSub, h]
  | cons c a2 ih =>
      simp [chSub, ih]

theorem splitCh_ne_nil (sep : Char) (l : List Char) :
    splitCh sep l ≠ [] := by
  cases l with
  | nil => simp [splitCh]
  | cons c rest =>
      simp only [splitCh]
      by_cases h : c = sep
      · simp [h]
      · simp only [if_neg h]
        cases hs : splitCh sep rest <;> simp

theorem splitCh_not_mem (sep : Char) (l : List Char) (h : sep ∉ l) :
    splitCh sep l = [l] := by
  induction l with
  | nil => rfl
  | cons c rest ih =>
      have hc : ¬ c = sep := fun hh => h (hh ▸ List.mem_cons_self c rest)
      have hrest : sep ∉ rest := fun hh => h (List.mem_cons_of_mem c hh)
      simp only [splitCh, if_neg hc, ih hrest]

theorem splitCh_append_sep (sep : Char) (p rest : List Char)
    (h : sep ∉ p) : splitCh sep (p ++ sep :: rest) = p :: splitCh sep rest := by
  induction p with
  | nil => simp [splitCh]
  | cons c p2 ih =>
      have hc : ¬ c = sep := fun hh =>
        h (hh ▸ List.mem_cons_self c p2)
      have hp2 : sep ∉ p2 := fun hh => h (List.mem_cons_of_mem c hh)
      simp only [List.cons_append, splitCh, if_neg hc, List.append_eq]
      rw [ih hp2]

theorem splitCh_joinCh (sep : Char) (pieces : List (List Char))
    (hne : pieces ≠ []) (h : ∀ p ∈ pieces, sep ∉ p) :
    splitCh sep (joinCh sep pieces) = pieces := by
  induction pieces with
  | nil => exact absurd rfl hne
  | cons p rest ih =>
      cases rest with
      | nil =>
          simp only [joinCh]
          exact splitCh_not_mem sep p (h p (List.mem_cons_self p []))
      | cons p2 rest2 =>
          simp only [joinCh]
          rw [splitCh_append_sep sep p _ (h p (List.mem_cons_self p _))]
          rw [ih (by simp) (fun q hq => h q (List.mem_cons_of_mem p hq))]

theorem joinCh_length (sep : Char) (ps : List (List Char)) :
    (joinCh sep ps).length = (ps.map List.length).sum + (ps.length - 1) := by
  induction ps with
  | nil => simp [joinCh]
  | cons p rest ih =>
      cases rest with
      | nil => simp [joinCh]
      | cons p2 rest2 =>
          simp only [joinCh, List.length_append, List.length_cons, ih,
            List.map_cons, List.sum_cons, List.length_cons] at ih ⊢
          omega

theorem joinCh_append (sep : Char) (ps qs : List (List Char))
    (hp : ps ≠ []) (hq : qs ≠ []) :
    joinCh sep (ps ++ qs) = joinCh sep ps ++ sep :: joinCh sep qs := by
  induction ps with
  | nil => exact absurd rfl hp
  | cons p rest ih =>
      cases rest with
      | nil =>
          cases qs with
          | nil => exact absurd rfl hq
          | cons q qs2 => simp [joinCh]
      | cons p2 rest2 =>
          have ih2 := ih (by simp)
          rw [List.cons_append] at ih2
          simp only [List.cons_append, joinCh, List.append_eq]
          rw [ih2]
          simp

/-! ## Serialized records occupy exactly one line -/

theorem digitChar_ne_nl (d : Nat) : digitChar d ≠ '\n' := by
  unfold digitChar
  split <;> decide

theorem nl_not_mem_natStrAux (fuel n : Nat) :
    '\n' ∉ natStrAux fuel n := by
  induction fuel generalizing n with
  | zero => simp [natStrAux]
  | succ fuel ih =>
      simp only [natStrAux]
      split
      · simp [fun d => (digitChar_ne_nl d).symm]
      · intro hmem
        rcases List.mem_append.mp hmem with h | h
        · exact ih (n / 10) h
        · rcases List.mem_singleton.mp h with h2
          exact (digitChar_ne_nl (n % 10)) h2.symm

theorem nl_not_mem_natStr (n : Nat) : '\n' ∉ (natStr n).data :=
  nl_not_mem_natStrAux (n + 1) n

theorem nl_not_mem_intStr (i : Int) : '\n' ∉ (intStr i).data := by
  unfold intStr
  split
  · rw [String.data_append]
    intro hmem
    rcases List.mem_append.mp hmem with h | h
    · simp at h
    · exact nl_not_mem_natStr i.natAbs h
  · exact nl_not_mem_natStr i.natAbs

theorem nl_not_mem_ratStr (i : Int) : '\n' ∉ (ratStr i).data :=
  nl_not_mem_intStr i

theorem nl_not_mem_escChar (c : Char) : '\n' ∉ escChar c := by
  unfold escChar
  split_ifs with h1 h2 h3 h4 h5 <;> simp_all
  intro h
  exact h3 h.symm

theorem nl_not_mem_escFold (l : List Char) :
    '\n' ∉ l.foldr (fun c acc => escChar c ++ acc) ['"'] := by
  induction l with
  | nil => decide
  | cons c rest ih =>
      simp only [List.foldr_cons]
      intro hmem
      rcases List.mem_append.mp hmem with h2 | h2
      · exact nl_not_mem_escChar c h2
      · exact ih h2

theorem nl_not_mem_quoteStr (s : String) : '\n' ∉ (quoteStr s).data := by
  unfold quoteStr
  show '\n' ∉ '"' :: s.data.foldr (fun c acc => escChar c ++ acc) ['"']
  intro hmem
  rcases List.mem_cons.mp hmem with h | h
  · exact absurd h (by decide)
  · exact nl_not_mem_escFold s.data h

theorem nl_not_mem_append (a b : String) (ha : '\n' ∉ a.data)
    (hb : '\n' ∉ b.data) : '\n' ∉ (a ++ b).data := by
  rw [String.data_append]
  intro hmem
  rcases List.mem_append.mp hmem with h | h
  · exact ha h
  · exact hb h

theorem nl_not_mem_joinSep (sep : String) (ss : List String)
    (hsep : '\n' ∉ sep.data) (h : ∀ s ∈ ss, '\n' ∉ s.data) :
    '\n' ∉ (joinSep sep ss).data := by
  induction ss with
  | nil => simp [joinSep]
  | cons s rest ih =>
      cases rest with
      | nil =>
          simp only [joinSep]
          exact h s (List.mem_cons_self s [])
      | cons s2 rest2 =>
          simp only [joinSep]
          apply nl_not_mem_append
          · apply nl_not_mem_append
            · exact h s (List.mem_cons_self s _)
            · exact hsep
          · exact ih (fun q hq => h q (List.mem_cons_of_mem s hq))

theorem nl_not_mem_fieldStr (k v : String) (hv : '\n' ∉ v.data) :
    '\n' ∉ (fieldStr k v).data := by
  unfold fieldStr
  apply nl_not_mem_append
  · apply nl_not_mem_append
    · exact nl_not_mem_quoteStr k
    · simp
  · exact hv

theorem nl_not_mem_objStr (fields : List String)
    (h : ∀ f ∈ fields, '\n' ∉ f.data) : '\n' ∉ (objStr fields).data := by
  unfold objStr
  apply nl_not_mem_append
  · apply nl_not_mem_append
    · simp
    · exact nl_not_mem_joinSep "," fields (by simp) h
  · simp

theorem nl_not_mem_arrStr (elems : List String)
    (h : ∀ f ∈ elems, '\n' ∉ f.data) : '\n' ∉ (arrStr elems).data := by
  unfold arrStr
  apply nl_not_mem_append
  · apply nl_not_mem_append
    · simp
    · exact nl_not_mem_joinSep "," elems (by simp) h
  · simp

theorem nl_not_mem_jprimStr (v : JPrim) : '\n' ∉ (jprimStr v).data := by
  cases v with
  | null => simp [jprimStr]
  | bool b => cases b <;> simp [jprimStr]
  | num n => exact nl_not_mem_ratStr n
  | str s => exact nl_not_mem_quoteStr s

theorem nl_not_mem_optField (k : String) (ov : Option String)
    (h : ∀ v, ov = some v → '\n' ∉ v.data) :
    ∀ f ∈ optField k ov, '\n' ∉ f.data := by
  cases ov with
  | none => simp [optField]
  | some v =>
      intro f hf
      rcases List.mem_singleton.mp hf with rfl
      exact nl_not_mem_fieldStr k v (h v rfl)

theorem nl_not_mem_extraFields (extra : List (String × String)) :
    ∀ f ∈ extra.map (fun kv => fieldStr kv.1 (quoteStr kv.2)),
      '\n' ∉ f.data := by
  intro f hf
  rcases List.mem_map.mp hf with ⟨kv, _, rfl⟩
  exact nl_not_mem_fieldStr kv.1 (quoteStr kv.2) (nl_not_mem_quoteStr kv.2)

theorem nl_not_mem_optField_map {α : Type} (k : String) (ov : Option α)
    (g : α → String) (hg : ∀ a, '\n' ∉ (g a).data) :
    ∀ f ∈ optField k (ov.map g), '\n' ∉ f.data := by
  cases ov with
  | none => simp [optField]
  | some a =>
      intro f hf
      rcases List.mem_singleton.mp hf with rfl
      exact nl_not_mem_fieldStr k (g a) (hg a)

theorem nl_not_mem_arr_map {α : Type} (xs : List α) (g : α → String)
    (hg : ∀ a, '\n' ∉ (g a).data) :
    '\n' ∉ (arrStr (xs.map g)).data := by
  apply nl_not_mem_arrStr
  intro f hf
  rcases List.mem_map.mp hf with ⟨a, _, rfl⟩
  exact hg a

theorem nl_not_mem_stringifyHeader (h : Header) :
    '\n' ∉ (stringifyHeader h).data := by
  apply nl_not_mem_objStr
  intro f hf
  rcases List.mem_cons.mp hf with rfl | hf2
  · exact nl_not_mem_fieldStr _ _ (nl_not_mem_quoteStr h.name)
  · rcases List.mem_singleton.mp hf2 with rfl
    exact nl_not_mem_fieldStr _ _ (nl_not_mem_quoteStr h.value)

theorem nl_not_mem_stringifyCookie (c : Cookie) :
    '\n' ∉ (stringifyCookie c).data := by
  apply nl_not_mem_objStr
  refine List.forall_mem_append.mpr ⟨List.forall_mem_append.mpr
    ⟨List.forall_mem_append.mpr ⟨List.forall_mem_append.mpr
      ⟨?_, ?_⟩, ?_⟩, ?_⟩, ?_⟩
  · intro f hf
    rcases List.mem_cons.mp hf with rfl | hf2
    · exact nl_not_mem_fieldStr _ _ (nl_not_mem_quoteStr c.name)
    · rcases List.mem_singleton.mp hf2 with rfl
      exact nl_not_mem_fieldStr _ _ (nl_not_mem_quoteStr c.value)
  · exact nl_not_mem_optField_map _ _ _ nl_not_mem_quoteStr
  · exact nl_not_mem_optField_map _ _ _
      (fun b => nl_not_mem_jprimStr (.bool b))
  · exact nl_not_mem_optField_map _ _ _ nl_not_mem_quoteStr
  · exact nl_not_mem_extraFields c.extra

theorem nl_not_mem_stringifyPostData (pd : PostData) :
    '\n' ∉ (stringifyPostData pd).data := by
  apply nl_not_mem_objStr
  refine List.forall_mem_append.mpr ⟨?_, ?_⟩
  · exact nl_not_mem_optField_map _ _ _ nl_not_mem_quoteStr
  · exact nl_not_mem_extraFields pd.extra

theorem nl_not_mem_stringifyContent (c : Content) :
    '\n' ∉ (stringifyContent c).data := by
  apply nl_not_mem_objStr
  refine List.forall_mem_append.mpr ⟨List.forall_mem_append.mpr
    ⟨List.forall_mem_append.mpr ⟨List.forall_mem_append.mpr
      ⟨List.forall_mem_append.mpr ⟨List.forall_mem_append.mpr
        ⟨?_, ?_⟩, ?_⟩, ?_⟩, ?_⟩, ?_⟩, ?_⟩
  · intro f hf
    rcases List.mem_cons.mp hf with rfl | hf2
    · exact nl_not_mem_fieldStr _ _ (nl_not_mem_quoteStr c.mimeType)
    · rcases List.mem_singleton.mp hf2 with rfl
      exact nl_not_mem_fieldStr _ _ (nl_not_mem_ratStr c.size)
  · exact nl_not_mem_optField_map _ _ _ nl_not_mem_quoteStr
  · exact nl_not_mem_optField_map _ _ _ nl_not_mem_ratStr
  · exact nl_not_mem_optField_map _ _ _ nl_not_mem_quoteStr
  · exact nl_not_mem_optField_map _ _ _ nl_not_mem_ratStr
  · exact nl_not_mem_optField_map _ _ _
      (fun b => nl_not_mem_jprimStr (.bool b))
  · exact nl_not_mem_extraFields c.extra

theorem nl_not_mem_stringifyRequest (r : NetRequest) :
    '\n' ∉ (stringifyRequest r).data := by
  apply nl_not_mem_objStr
  refine List.forall_mem_append.mpr ⟨List.forall_mem_append.mpr
    ⟨List.forall_mem_append.mpr ⟨List.forall_mem_append.mpr
      ⟨List.forall_mem_append.mpr ⟨List.forall_mem_append.mpr
        ⟨List.forall_mem_append.mpr ⟨?_, ?_⟩, ?_⟩, ?_⟩, ?_⟩, ?_⟩,
          ?_⟩, ?_⟩
  · intro f hf
    rcases List.mem_cons.mp hf with rfl | hf2
    · exact nl_not_mem_fieldStr _ _ (nl_not_mem_quoteStr r.url)
    · rcases List.mem_cons.mp hf2 with rfl | hf3
      · exact nl_not_mem_fieldStr _ _ (nl_not_mem_quoteStr r.method)
      · rcases List.mem_singleton.mp hf3 with rfl
        exact nl_not_mem_fieldStr _ _
          (nl_not_mem_arr_map _ _ nl_not_mem_stringifyHeader)
  · exact nl_not_mem_optField_map _ _ _ nl_not_mem_jprimStr
  · exact nl_not_mem_optField_map _ _ _ nl_not_mem_quoteStr
  · exact nl_not_mem_optField_map _ _ _ nl_not_mem_jprimStr
  · exact nl_not_mem_optField_map _ _ _
      (fun cs => nl_not_mem_arr_map cs _ nl_not_mem_stringifyCookie)
  · exact nl_not_mem_optField_map _ _ _ nl_not_mem_stringifyPostData
  · exact nl_not_mem_optField_map _ _ _
      (fun qs => nl_not_mem_arr_map qs _ nl_not_mem_quoteStr)
  · exact nl_not_mem_extraFields r.extra

theorem nl_not_mem_stringifyResponse (r : NetResponse) :
    '\n' ∉ (stringifyResponse r).data := by
  apply nl_not_mem_objStr
  refine List.forall_mem_append.mpr ⟨List.forall_mem_append.mpr
    ⟨List.forall_mem_append.mpr ⟨List.forall_mem_append.mpr
      ⟨List.forall_mem_append.mpr ⟨List.forall_mem_append.mpr
        ⟨List.forall_mem_append.mpr ⟨List.forall_mem_append.mpr
          ⟨?_, ?_⟩, ?_⟩, ?_⟩, ?_⟩, ?_⟩, ?_⟩, ?_⟩, ?_⟩
  · intro f hf
    rcases List.mem_cons.mp hf with rfl | hf2
    · exact nl_not_mem_fieldStr _ _ (nl_not_mem_ratStr r.status)
    · rcases List.mem_cons.mp hf2 with rfl | hf3
      · exact nl_not_mem_fieldStr _ _
          (nl_not_mem_arr_map _ _ nl_not_mem_stringifyHeader)
      · rcases List.mem_singleton.mp hf3 with rfl
        exact nl_not_mem_fieldStr _ _
          (nl_not_mem_stringifyContent r.content)
  · exact nl_not_mem_optField_map _ _ _ nl_not_mem_quoteStr
  · exact nl_not_mem_optField_map _ _ _ nl_not_mem_jprimStr
  · exact nl_not_mem_optField_map _ _ _ nl_not_mem_jprimStr
  · exact nl_not_mem_optField_map _ _ _ nl_not_mem_jprimStr
  · exact nl_not_mem_optField_map _ _ _
      (fun cs => nl_not_mem_arr_map cs _ nl_not_mem_stringifyCookie)
  · exact nl_not_mem_optField_map _ _ _ nl_not_mem_quoteStr
  · exact nl_not_mem_optField_map _ _ _ nl_not_mem_quoteStr
  · exact nl_not_mem_extraFields r.extra

theorem nl_not_mem_stringifyTimings (ts : List (String × JPrim)) :
    '\n' ∉ (stringifyTimings ts).data := by
  apply nl_not_mem_objStr
  intro f hf
  rcases List.mem_map.mp hf with ⟨kv, _, rfl⟩
  exact nl_not_mem_fieldStr kv.1 (jprimStr kv.2) (nl_not_mem_jprimStr kv.2)

theorem nl_not_mem_stringifySnapshot (s : Snapshot) :
    '\n' ∉ (stringifySnapshot s).data := by
  apply nl_not_mem_objStr
  refine List.forall_mem_append.mpr ⟨List.forall_mem_append.mpr
    ⟨List.forall_mem_append.mpr ⟨List.forall_mem_append.mpr
      ⟨List.forall_mem_append.mpr ⟨List.forall_mem_append.mpr
        ⟨List.forall_mem_append.mpr ⟨List.forall_mem_append.mpr
          ⟨List.forall_mem_append.mpr ⟨List.forall_mem_append.mpr
            ⟨?_, ?_⟩, ?_⟩, ?_⟩, ?_⟩, ?_⟩, ?_⟩, ?_⟩, ?_⟩, ?_⟩, ?_⟩
  · intro f hf
    rcases List.mem_cons.mp hf with rfl | hf2
    · exact nl_not_mem_fieldStr _ _ (nl_not_mem_stringifyRequest s.request)
    · rcases List.mem_singleton.mp hf2 with rfl
      exact nl_not_mem_fieldStr _ _ (nl_not_mem_stringifyResponse s.response)
  · exact nl_not_mem_optField_map _ _ _ nl_not_mem_stringifyTimings
  · exact nl_not_mem_optField_map _ _ _ nl_not_mem_jprimStr
  · exact nl_not_mem_optField_map _ _ _ nl_not_mem_quoteStr
  · exact nl_not_mem_optField_map _ _ _ nl_not_mem_quoteStr
  · exact nl_not_mem_optField_map _ _ _ nl_not_mem_quoteStr
  · exact nl_not_mem_optField_map _ _ _ nl_not_mem_quoteStr
  · exact nl_not_mem_optField_map _ _ _ nl_not_mem_quoteStr
  · exact nl_not_mem_optField_map _ _ _ nl_not_mem_quoteStr
  · exact nl_not_mem_optField_map _ _ _ nl_not_mem_quoteStr
  · exact nl_not_mem_extraFields s.extra

theorem nl_not_mem_stringifyNetEntry (e : NetworkTraceEntry) :
    '\n' ∉ (stringifyNetEntry e).data := by
  apply nl_not_mem_objStr
  refine List.forall_mem_append.mpr ⟨List.forall_mem_append.mpr
    ⟨List.forall_mem_append.mpr ⟨List.forall_mem_append.mpr
      ⟨?_, ?_⟩, ?_⟩, ?_⟩, ?_⟩
  · exact nl_not_mem_optField_map _ _ _ nl_not_mem_quoteStr
  · exact nl_not_mem_optField_map _ _ _ nl_not_mem_quoteStr
  · intro f hf
    rcases List.mem_singleton.mp hf with rfl
    exact nl_not_mem_fieldStr _ _ (nl_not_mem_stringifySnapshot e.snapshot)
  · exact nl_not_mem_optField_map _ _ _ nl_not_mem_quoteStr
  · exact nl_not_mem_extraFields e.extra

theorem nl_not_mem_stringifyTraceEntry (e : TraceEntry) :
    '\n' ∉ (stringifyTraceEntry e).data := by
  apply nl_not_mem_objStr
  refine List.forall_mem_append.mpr ⟨List.forall_mem_append.mpr
    ⟨List.forall_mem_append.mpr ⟨?_, ?_⟩, ?_⟩, ?_⟩
  · exact nl_not_mem_optField_map _ _ _ nl_not_mem_jprimStr
  · exact nl_not_mem_optField_map _ _ _ nl_not_mem_jprimStr
  · exact nl_not_mem_optField_map _ _ _ nl_not_mem_jprimStr
  · exact nl_not_mem_extraFields e.extra

theorem objStr_ne_empty (fields : List String) : objStr fields ≠ "" := by
  unfold objStr
  intro h
  have hd := congrArg String.data h
  rw [String.data_append, String.data_append] at hd
  simp at hd

theorem stringifyTraceEntry_ne_empty (e : TraceEntry) :
    stringifyTraceEntry e ≠ "" := objStr_ne_empty _

theorem stringifyNetEntry_ne_empty (e : NetworkTraceEntry) :
    stringifyNetEntry e ≠ "" := objStr_ne_empty _

theorem traceOutput_data (es : List TraceEntry) :
    (traceOutputString es).data =
      joinCh '\n' (es.map (fun e => (stringifyTraceEntry e).data)) ++
        ['\n'] := by
  unfold traceOutputString
  rw [String.data_append]
  rw [show ("\n" : String) = String.mk ['\n'] from rfl, joinSep_data]
  simp [List.map_map]
  rfl

theorem netOutput_data (es : List NetworkTraceEntry) :
    (netOutputString es).data =
      joinCh '\n' (es.map (fun e => (stringifyNetEntry e).data)) := by
  unfold netOutputString
  rw [show ("\n" : String) = String.mk ['\n'] from rfl, joinSep_data]
  simp [List.map_map]
  rfl

/-- The trace output file, split at newlines, is exactly the serialized
kept records (in order) followed by the empty tail that the explicit
trailing newline produces. -/
theorem traceOutput_lines (es : List TraceEntry) (h : es ≠ []) :
    splitCh '\n' (traceOutputString es).data =
      es.map (fun e => (stringifyTraceEntry e).data) ++ [[]] := by
  rw [traceOutput_data]
  have hp : es.map (fun e => (stringifyTraceEntry e).data) ≠ [] := by
    simpa using h
  rw [show (['\n'] : List Char) = '\n' :: joinCh '\n' [[]] from rfl]
  rw [← joinCh_append '\n' _ [[]] hp (by simp)]
  apply splitCh_joinCh
  · simp
  · intro p hp2
    rcases List.mem_append.mp hp2 with h2 | h2
    · rcases List.mem_map.mp h2 with ⟨e, _, rfl⟩
      exact nl_not_mem_stringifyTraceEntry e
    · rcases List.mem_singleton.mp h2 with rfl
      simp

/-- The network output file, split at newlines, is exactly the
serialized kept records in order — with no trailing empty piece, because
the source writes no trailing newline. -/
theorem netOutput_lines (es : List NetworkTraceEntry) (h : es ≠ []) :
    splitCh '\n' (netOutputString es).data =
      es.map (fun e => (stringifyNetEntry e).data) := by
  rw [netOutput_data]
  apply splitCh_joinCh
  · simpa using h
  · intro p hp2
    rcases List.mem_map.mp hp2 with ⟨e, _, rfl⟩
    exact nl_not_mem_stringifyNetEntry e

/-! ## Idempotence support -/

theorem transformStep_request_url (cond : Bool) (f : Snapshot → Snapshot)
    (s : Snapshot) (hf : ∀ t, (f t).request.url = t.request.url) :
    (transformStep cond f s).request.url = s.request.url := by
  unfold transformStep
  split
  · exact hf s
  · rfl

theorem transformSnapshot_url (o : NetworkFilterOptions) (s : Snapshot) :
    (transformSnapshot o s).request.url = s.request.url := by
  unfold transformSnapshot
  repeat
    rw [transformStep_request_url]
  intro t
  · rfl
  all_goals intro t
  · rfl
  · rfl
  · rfl
  · rfl
  · rfl
  · rfl
  · rfl

theorem transformEntry_url (e : NetworkTraceEntry)
    (o : NetworkFilterOptions) :
    (transformEntry e o).snapshot.request.url = e.snapshot.request.url :=
  transformSnapshot_url o e.snapshot

theorem transformStep_pres_bodySize (cond : Bool) (f : Snapshot → Snapshot)
    (hf : ∀ u, (f u).request.bodySize = u.request.bodySize) (t : Snapshot) :
    (transformStep cond f t).request.bodySize = t.request.bodySize := by
  unfold transformStep
  split
  · exact hf t
  · rfl

theorem transformSnapshot_bodySize (o : NetworkFilterOptions)
    (s : Snapshot) :
    (transformSnapshot o s).request.bodySize = s.request.bodySize ∨
      (transformSnapshot o s).request.bodySize = none := by
  unfold transformSnapshot
  rw [transformStep_pres_bodySize _ reducePrecision (fun u => rfl),
      transformStep_pres_bodySize _ removeContentHashes (fun u => rfl),
      transformStep_pres_bodySize _ simplifyCookies (fun u => rfl)]
  cases h : o.removeHttpMetadata
  · left
    show (transformStep false removeHttpMetadata _).request.bodySize = _
    rw [show ∀ t, transformStep false removeHttpMetadata t = t from
          fun t => rfl]
    rw [transformStep_pres_bodySize _ simplifyVerboseFields (fun u => rfl),
        transformStep_pres_bodySize _ applyTruncate (fun u => rfl),
        transformStep_pres_bodySize _ cleanTimingData (fun u => rfl),
        transformStep_pres_bodySize _ applyFilterHeaders (fun u => rfl)]
  · right
    rfl

theorem transformEntry_bodySize (e : NetworkTraceEntry)
    (o : NetworkFilterOptions) :
    (transformEntry e o).snapshot.request.bodySize =
        e.snapshot.request.bodySize ∨
      (transformEntry e o).snapshot.request.bodySize = none :=
  transformSnapshot_bodySize o e.snapshot

theorem shouldRemoveRequest_none_transfer (e e2 : NetworkTraceEntry)
    (o : NetworkFilterOptions)
    (hu : e2.snapshot.request.url = e.snapshot.request.url)
    (hb : e2.snapshot.request.bodySize = e.snapshot.request.bodySize ∨
          e2.snapshot.request.bodySize = none)
    (h : shouldRemoveRequest e o = none) :
    shouldRemoveRequest e2 o = none := by
  have hl : (isLargeUpload e2 = false) ∨
      (isLargeUpload e2 = isLargeUpload e) := by
    rcases hb with hb | hb
    · right
      unfold isLargeUpload
      rw [hb]
    · left
      unfold isLargeUpload
      rw [hb]
  simp only [shouldRemoveRequest, requestUrl] at h ⊢
  simp only [hu]
  split_ifs at h with h1 h2 h3 h4 h5 h6 h7 h8
  all_goals try simp at h
  rcases hl with hl | hl
  · simp [h1, h2, h3, h4, hl, h6, h7, h8]
  · rw [hl]
    simp [h1, h2, h3, h4, h5, h6, h7, h8]

theorem shouldRemoveRequest_malformed (raw err : String)
    (o : NetworkFilterOptions) :
    shouldRemoveRequest (mkMalformedNet raw err) o = none := by
  have h1 : analyticsPatterns.any
      (fun pattern => strIncludes (lowerStr "MALFORMED") pattern) = false := by
    decide
  have h2 : cloudAnalyticsPatterns.any
      (fun pattern => strIncludes (lowerStr "MALFORMED") pattern) = false := by
    decide
  have h3 : mapsPatterns.any
      (fun pattern => strIncludes (lowerStr "MALFORMED") pattern) = false := by
    decide
  have h4 : strStartsWith "MALFORMED" "blob:" = false := by decide
  have h5 : staticCdnPatterns.any
      (fun pattern => strIncludes (lowerStr "MALFORMED") pattern) = false := by
    decide
  have h6 : staticExtensions.any (fun ext =>
      strEndsWith (headOrEmpty (splitStr '?' "MALFORMED")) ext) = false := by
    decide
  have h7 : widgetPatterns.any
      (fun pattern => strIncludes (lowerStr "MALFORMED") pattern) = false := by
    decide
  have hurl : requestUrl (mkMalformedNet raw err) = "MALFORMED" := rfl
  have hbody : isLargeUpload (mkMalformedNet raw err) = false := rfl
  simp only [shouldRemoveRequest, hurl, hbody, h1, h2, h3, h4, h5, h6, h7,
    Bool.and_false]
  simp

theorem shouldRemoveEntry_snd_fields (e : TraceEntry) (o : FilterOptions) :
    (shouldRemoveEntry e o).2.type = e.type ∧
      (shouldRemoveEntry e o).2.messageType = e.messageType ∧
      (shouldRemoveEntry e o).2.extra = e.extra := by
  obtain ⟨ty, mt, tx, ex⟩ := e
  simp only [shouldRemoveEntry]
  split_ifs with h1 h2 h3 h4 h5
  · exact ⟨rfl, rfl, rfl⟩
  · exact ⟨rfl, rfl, rfl⟩
  · exact ⟨rfl, rfl, rfl⟩
  · exact ⟨rfl, rfl, rfl⟩
  · cases tx with
    | none => exact ⟨rfl, rfl, rfl⟩
    | some t =>
        cases t with
        | str s =>
            refine ⟨?_, ?_, ?_⟩ <;>
              (split <;> first | rfl | (split <;> rfl))
        | null => exact ⟨rfl, rfl, rfl⟩
        | bool b => exact ⟨rfl, rfl, rfl⟩
        | num n => exact ⟨rfl, rfl, rfl⟩
  · exact ⟨rfl, rfl, rfl⟩

theorem shouldRemoveEntry_keep_again (e : TraceEntry) (o : FilterOptions)
    (hc : o.filterConsoleLogs = false)
    (h : (shouldRemoveEntry e o).1 = none) :
    (shouldRemoveEntry ((shouldRemoveEntry e o).2) o).1 = none := by
  obtain ⟨ht, hm, _⟩ := shouldRemoveEntry_snd_fields e o
  rw [shouldRemoveEntry_firstMatch] at h ⊢
  unfold firstMatch at h ⊢
  rw [Option.map_eq_none', List.find?_eq_none] at h ⊢
  intro rule hrule
  have h0 := h rule hrule
  simp only [traceRuleList, List.mem_cons, List.not_mem_nil, or_false]
    at hrule
  rcases hrule with rfl | rfl | rfl | rfl
  · simpa [ht] using h0
  · simpa [ht] using h0
  · simp [hc]
  · simpa [ht] using h0

theorem shouldRemoveEntry_malformed_fst (raw err : String)
    (o : FilterOptions) :
    (shouldRemoveEntry (mkMalformedTrace raw err) o).1 = none := by
  rw [shouldRemoveEntry_firstMatch]
  unfold firstMatch
  rw [Option.map_eq_none', List.find?_eq_none]
  intro rule hrule
  simp only [traceRuleList, List.mem_cons, List.not_mem_nil, or_false]
    at hrule
  rcases hrule with rfl | rfl | rfl | rfl <;>
    simp [mkMalformedTrace, jsOr, truthy, uiElementTypes]

/-! ## Concrete long console records (too large for kernel evaluation,
so their filtering behavior is established structurally) -/

theorem mk_data (s : String) : String.mk s.data = s := rfl

theorem length_eq_data_length : ∀ s : String, s.length = s.data.length :=
  fun _ => rfl

theorem bigText_data :
    bigText.data = joinCh '\n' (bigTracePieces.map String.data) := by
  unfold bigText
  rw [show ("\n" : String) = String.mk ['\n'] from rfl, joinSep_data]

theorem bigTracePieces_noNl :
    ∀ p ∈ bigTracePieces, '\n' ∉ p.data := by
  intro p hp
  simp only [bigTracePieces, List.mem_append, List.mem_replicate,
    List.mem_singleton] at hp
  rcases hp with ((⟨-, rfl⟩ | rfl) | ⟨-, rfl⟩) | ⟨-, rfl⟩ <;> decide

theorem bigTracePieces_length : bigTracePieces.length = 716 := by
  simp only [bigTracePieces, List.length_append, List.length_replicate,
    List.length_cons, List.length_nil]

theorem splitStr_bigText : splitStr '\n' bigText = bigTracePieces := by
  unfold splitStr
  have hne : bigTracePieces.map String.data ≠ [] := by
    intro h
    have := congrArg List.length h
    rw [List.length_map, bigTracePieces_length] at this
    simp at this
  rw [bigText_data,
    splitCh_joinCh '\n' _ hne (by
      intro p hp
      rcases List.mem_map.mp hp with ⟨q, hq, rfl⟩
      exact bigTracePieces_noNl q hq)]
  rw [List.map_map]
  have hid : (String.mk ∘ String.data) = id := funext mk_data
  rw [hid, List.map_id]

theorem bigText_length : bigText.length = 6335 := by
  rw [length_eq_data_length]
  rw [bigText_data, joinCh_length, List.map_map, List.length_map,
    bigTracePieces_length]
  unfold bigTracePieces
  rw [List.map_append, List.map_append, List.map_append,
    List.map_replicate, List.map_replicate, List.map_replicate,
    List.sum_append, List.sum_append, List.sum_append,
    List.sum_replicate, List.sum_replicate, List.sum_replicate]
  simp only [List.map_cons, List.map_nil, List.sum_cons, List.sum_nil,
    Function.comp_apply, smul_eq_mul]
  norm_num [show (("z" : String).data.length) = 1 from rfl,
    show (("error" : String).data.length) = 5 from rfl,
    show (("    at f" : String).data.length) = 8 from rfl]

theorem bigText_ne_empty : bigText ≠ "" := by
  intro h
  have h2 := congrArg String.length h
  rw [bigText_length] at h2
  simp at h2

theorem chSub_append_right (n a l : List Char) (h : chSub n l = true) :
    chSub n (a ++ l) = true := by
  induction a with
  | nil => simpa using h
  | cons c a2 ih => simp [chSub, ih]

theorem chSub_cons_right (n : List Char) (c : Char) (l : List Char)
    (h : chSub n l = true) : chSub n (c :: l) = true := by
  simp [chSub, h]

theorem chSub_head (n b : List Char) : chSub n (n ++ b) = true := by
  have h := chSub_sandwich n [] b
  simpa using h

theorem lowerStr_data (s : String) :
    (lowerStr s).data = s.data.map Char.toLower := rfl

theorem map_data_ne_nil (l : List String) (h : l.length ≠ 0) :
    l.map String.data ≠ [] := by
  intro hh
  have h2 := congrArg List.length hh
  simp only [List.length_map, List.length_nil] at h2
  exact h h2

theorem replicate_strings_len (n : Nat) (s : String) :
    (List.replicate n s).length = n := List.length_replicate n s

theorem strIncludes_lower_bigText_error :
    strIncludes (lowerStr bigText) "error" = true := by
  unfold strIncludes
  rw [lowerStr_data, bigText_data]
  rw [show bigTracePieces.map String.data =
      (List.replicate 10 "z").map String.data ++
        ((("error" : String).data) ::
          (List.replicate 700 "    at f" ++
            List.replicate 5 "z").map String.data) from by
    simp only [bigTracePieces, List.singleton_append, List.map_append,
      List.map_cons, List.map_nil, List.append_nil, List.append_assoc,
      List.cons_append, List.nil_append]]
  rw [joinCh_append '\n' _ _
      (map_data_ne_nil _ (by rw [replicate_strings_len]; decide))
      (List.cons_ne_nil _ _)]
  rw [show ((("error" : String).data) ::
      (List.replicate 700 "    at f" ++
        List.replicate 5 "z").map String.data) =
      [("error" : String).data] ++
        (List.replicate 700 "    at f" ++
          List.replicate 5 "z").map String.data from rfl]
  rw [joinCh_append '\n' _ _ (List.cons_ne_nil _ _)
      (map_data_ne_nil _ (by
        simp only [List.length_append, replicate_strings_len]
        norm_num))]
  rw [List.map_append]
  apply chSub_append_right
  rw [List.map_cons]
  rw [show Char.toLower '\n' = '\n' from rfl]
  apply chSub_cons_right
  rw [List.map_append]
  rw [show (joinCh '\n' [("error" : String).data]).map Char.toLower =
      ("error" : String).data from by decide]
  exact chSub_head _ _

theorem bigText_truthy : truthy (JPrim.str bigText) = true := by
  have ht : (bigText != "") = true := bne_iff_ne.mpr bigText_ne_empty
  simp [truthy, ht]

theorem isImportant_bigEntry : isImportantConsoleLog bigEntry = true := by
  unfold isImportantConsoleLog
  apply List.any_eq_true.mpr
  refine ⟨"error", by simp [importantKeywords], ?_⟩
  rw [show jsOr bigEntry.text (.str "") = JPrim.str bigText from by
    simp [bigEntry, jsOr, bigText_truthy]]
  exact strIncludes_lower_bigText_error

theorem strIncludes_bigText_at :
    strIncludes bigText "\n    at " = true := by
  unfold strIncludes
  rw [bigText_data]
  rw [show bigTracePieces.map String.data =
      (List.replicate 10 "z").map String.data ++
        ((("error" : String).data) ::
          (List.replicate 700 "    at f" ++
            List.replicate 5 "z").map String.data) from by
    simp only [bigTracePieces, List.singleton_append, List.map_append,
      List.map_cons, List.map_nil, List.append_nil, List.append_assoc,
      List.cons_append, List.nil_append]]
  rw [joinCh_append '\n' _ _
      (map_data_ne_nil _ (by rw [replicate_strings_len]; decide))
      (List.cons_ne_nil _ _)]
  rw [show ((("error" : String).data) ::
      (List.replicate 700 "    at f" ++
        List.replicate 5 "z").map String.data) =
      [("error" : String).data] ++
        (List.replicate 700 "    at f" ++
          List.replicate 5 "z").map String.data from rfl]
  rw [joinCh_append '\n' _ _ (List.cons_ne_nil _ _)
      (map_data_ne_nil _ (by
        simp only [List.length_append, replicate_strings_len]
        norm_num))]
  apply chSub_append_right
  apply chSub_cons_right
  apply chSub_append_right
  rw [show (List.replicate 700 "    at f" ++
      List.replicate 5 "z").map String.data =
      [("    at f" : String).data] ++
        (List.replicate 699 "    at f" ++
          List.replicate 5 "z").map String.data from by
    rw [show (700 : Nat) = 699 + 1 from rfl, List.replicate_succ]
    simp only [List.cons_append, List.map_cons, List.singleton_append,
      List.nil_append]]
  rw [joinCh_append '\n' _ _ (List.cons_ne_nil _ _)
      (map_data_ne_nil _ (by
        simp only [List.length_append, replicate_strings_len]
        norm_num))]
  rw [show joinCh '\n' [("    at f" : String).data] =
      ("    at " : String).data ++ ['f'] from by decide]
  rw [show ('\n' :: ((("    at " : String).data ++ ['f']) ++
      ('\n' :: joinCh '\n' ((List.replicate 699 "    at f" ++
        List.replicate 5 "z").map String.data)))) =
      ("\n    at " : String).data ++ ('f' ::
        ('\n' :: joinCh '\n' ((List.replicate 699 "    at f" ++
          List.replicate 5 "z").map String.data))) from by
    simp only [List.append_assoc, List.cons_append, List.singleton_append]
    rfl]
  exact chSub_head _ _

theorem truncateText_bigText : truncateText bigText = truncatedBigText := by
  simp only [truncateText]
  rw [splitStr_bigText, bigTracePieces_length]
  have htake : bigTracePieces.take 10 = List.replicate 10 "z" := by
    rw [show bigTracePieces = List.replicate 10 "z" ++
        (["error"] ++ (List.replicate 700 "    at f" ++
          List.replicate 5 "z")) from by
      simp only [bigTracePieces, List.append_assoc]]
    exact List.take_left' (replicate_strings_len 10 "z")
  have hdrop : bigTracePieces.drop (716 - 5) = List.replicate 5 "z" := by
    unfold bigTracePieces
    exact List.drop_left' (by
      simp only [List.length_append, replicate_strings_len,
        List.length_cons, List.length_nil])
  rw [htake, hdrop]
  rfl

theorem shouldRemoveEntry_bigEntry :
    shouldRemoveEntry bigEntry minimalTraceOptions = (none, truncBigEntry) := by
  have himp := isImportant_bigEntry
  have hlen : (decide (bigText.length > 5000)) = true := by
    rw [bigText_length]
    decide
  have hsplit : (decide ((splitStr '\n' bigText).length > 20)) = true := by
    rw [splitStr_bigText, bigTracePieces_length]
    decide
  have hinc := strIncludes_bigText_at
  have hne : (bigText != "") = true := bne_iff_ne.mpr bigText_ne_empty
  have hc1 : (minimalTraceOptions.removeFrameSnapshots &&
      (jsOr bigEntry.type (.str "") == JPrim.str "frame-snapshot")) =
        false := by decide
  have hc2 : (minimalTraceOptions.removeScreencastFrames &&
      (jsOr bigEntry.type (.str "") == JPrim.str "screencast-frame")) =
        false := by decide
  have hc3 : (minimalTraceOptions.filterConsoleLogs &&
      (jsOr bigEntry.type (.str "") == JPrim.str "console") &&
      ["info", "log"].contains
        (jsToString (jsOr bigEntry.messageType (.str ""))) &&
      !(isImportantConsoleLog bigEntry)) = false := by
    rw [himp]
    decide
  have hc4 : (minimalTraceOptions.removeUIElements &&
      (uiElementTypes.map JPrim.str).contains
        (jsOr bigEntry.type (.str ""))) = false := by decide
  have hc5 : (minimalTraceOptions.truncateStackTraces &&
      (jsOr bigEntry.type (.str "") == JPrim.str "console")) = true := by
    decide
  simp only [shouldRemoveEntry, hc1, hc2, hc3, hc4, hc5,
    Bool.false_eq_true, if_false, if_true,
    show bigEntry.text = some (JPrim.str bigText) from rfl]
  rw [hne, hlen, hinc, hsplit]
  simp only [Bool.and_self, if_true]
  rw [truncateText_bigText]
  rfl

theorem shouldRemoveEntry_truncBigEntry :
    (shouldRemoveEntry truncBigEntry minimalTraceOptions).1 =
      some "console-verbose" := by decide

theorem flatText_length : flatText.length = 5109 := by
  rw [length_eq_data_length]
  show (List.replicate 5100 'a' ++ ("\n    at f" : String).data).length =
    5109
  rw [List.length_append, List.length_replicate,
    show ("\n    at f" : String).data.length = 9 from rfl]

theorem flatText_ne_empty : flatText ≠ "" := by
  intro h
  have h2 := congrArg String.length h
  rw [flatText_length] at h2
  simp at h2

theorem strIncludes_flatText_at :
    strIncludes flatText "\n    at " = true := by
  unfold strIncludes
  show chSub ("\n    at " : String).data
    (List.replicate 5100 'a' ++ ("\n    at f" : String).data) = true
  rw [show ("\n    at f" : String).data =
      ("\n    at " : String).data ++ ['f'] from by decide]
  exact chSub_sandwich _ _ _

theorem splitStr_flatText :
    splitStr '\n' flatText =
      [String.mk (List.replicate 5100 'a'), "    at f"] := by
  unfold splitStr
  show (splitCh '\n' (List.replicate 5100 'a' ++
    ("\n    at f" : String).data)).map String.mk = _
  rw [show ("\n    at f" : String).data =
      '\n' :: ("    at f" : String).data from rfl]
  rw [splitCh_append_sep '\n' _ _ (by
    intro h
    rcases List.mem_replicate.mp h with ⟨-, h2⟩
    exact absurd h2 (by decide))]
  rw [splitCh_not_mem '\n' _ (by decide)]
  simp only [List.map_cons, List.map_nil, mk_data]

theorem shouldRemoveEntry_flatEntry :
    shouldRemoveEntry flatEntry truncOnlyOptions = (none, flatEntry) := by
  have hd : (decide ((splitStr '\n' flatText).length > 20)) = false := by
    rw [splitStr_flatText]
    decide
  have hc1 : (truncOnlyOptions.removeFrameSnapshots &&
      (jsOr flatEntry.type (.str "") == JPrim.str "frame-snapshot")) =
        false := by decide
  have hc2 : (truncOnlyOptions.removeScreencastFrames &&
      (jsOr flatEntry.type (.str "") == JPrim.str "screencast-frame")) =
        false := by decide
  have hc3 : (truncOnlyOptions.filterConsoleLogs &&
      (jsOr flatEntry.type (.str "") == JPrim.str "console") &&
      ["info", "log"].contains
        (jsToString (jsOr flatEntry.messageType (.str ""))) &&
      !(isImportantConsoleLog flatEntry)) = false := by
    rw [show truncOnlyOptions.filterConsoleLogs = false from rfl]
    simp
  have hc4 : (truncOnlyOptions.removeUIElements &&
      (uiElementTypes.map JPrim.str).contains
        (jsOr flatEntry.type (.str ""))) = false := by decide
  have hc5 : (truncOnlyOptions.truncateStackTraces &&
      (jsOr flatEntry.type (.str "") == JPrim.str "console")) = true := by
    decide
  simp only [shouldRemoveEntry, hc1, hc2, hc3, hc4, hc5,
    Bool.false_eq_true, if_false, if_true,
    show flatEntry.text = some (JPrim.str flatText) from rfl]
  rw [hd]
  simp

theorem truncateText_flatText_len :
    (truncateText flatText).length = 10255 := by
  simp only [truncateText]
  rw [splitStr_flatText]
  rw [show ([String.mk (List.replicate 5100 'a'),
      ("    at f" : String)] : List String).length = 2 from rfl]
  rw [List.take_of_length_le (by norm_num), show (2 - 5 : Nat) = 0 from rfl,
    List.drop_zero]
  simp only [List.cons_append, List.nil_append, List.singleton_append]
  rw [length_eq_data_length,
    show ("\n" : String) = String.mk ['\n'] from rfl, joinSep_data,
    joinCh_length]
  simp only [List.map_cons, List.map_nil, List.sum_cons, List.sum_nil,
    List.length_cons, List.length_nil]
  rw [show truncMarker.data.length = 35 from rfl]
  norm_num

theorem flatText_ne_trunc : flatText ≠ truncateText flatText := by
  intro h
  have h2 := congrArg String.length h
  rw [flatText_length, truncateText_flatText_len] at h2
  norm_num at h2

/-! ## Counting lemmas -/

theorem counts_partition {α : Type} (ls : List (InLine α)) :
    countGood ls + countBad ls + countBlank ls = ls.length := by
  induction ls with
  | nil => simp [countGood, countBad, countBlank]
  | cons l rest ih =>
      cases l <;>
        simp [countGood, countBad, countBlank, List.countP_cons,
          List.length_cons] at ih ⊢ <;>
        omega

theorem net_counts_split (o : NetworkFilterOptions)
    (ls : List (InLine NetworkTraceEntry)) :
    netKeptCount (some o) ls + (netRemovedCats (some o) ls).length =
      countGood ls := by
  induction ls with
  | nil => simp [netKeptCount, netRemovedCats, countGood]
  | cons l rest ih =>
      cases l with
      | blank =>
          simpa [netKeptCount, netRemovedCats, countGood,
            List.countP_cons] using ih
      | bad raw err =>
          simpa [netKeptCount, netRemovedCats, countGood,
            List.countP_cons] using ih
      | good raw e =>
          rcases h : shouldRemoveRequest e o with _ | c <;>
            simp [netKeptCount, netRemovedCats, countGood,
              List.countP_cons, List.filterMap_cons, h,
              List.length_cons] at ih ⊢ <;>
            omega

theorem trace_out_length (o : FilterOptions)
    (ls : List (InLine TraceEntry)) :
    (ls.filterMap (traceLineOut o)).length +
        (traceRemovedCats o ls).length =
      countBad ls + countGood ls := by
  induction ls with
  | nil => simp [traceRemovedCats, countBad, countGood]
  | cons l rest ih =>
      cases l with
      | blank =>
          simpa [traceLineOut, traceRemovedCats, countBad, countGood,
            List.countP_cons] using ih
      | bad raw err =>
          simp [traceLineOut, traceRemovedCats, countBad, countGood,
            List.countP_cons, List.filterMap_cons, List.length_cons]
            at ih ⊢
          omega
      | good raw e =>
          rcases h : shouldRemoveEntry e o with ⟨c, kept⟩
          cases c <;>
            simp [traceLineOut, traceRemovedCats, countBad,
              countGood, List.countP_cons, List.filterMap_cons, h,
              List.length_cons] at ih ⊢ <;>
            omega

/-! ## Claim theorems -/

/-- C1 (counterexample): the claimed invariant
`totalRequests = keptRequests + removedRequests` fails on the network
pipeline for an input consisting of one malformed line: the line is
counted in `totalRequests` (which is the raw line count) but in neither
`keptRequests` nor `removedRequests`. -/
theorem c1_counterexample :
    (filterNetworkTrace initNetworkFilterStats 8
        [InLine.bad "not json" "SyntaxError: Unexpected token"]
        (some conservativeNetOptions)).1.totalRequests ≠
      (filterNetworkTrace initNetworkFilterStats 8
          [InLine.bad "not json" "SyntaxError: Unexpected token"]
          (some conservativeNetOptions)).1.keptRequests +
        (filterNetworkTrace initNetworkFilterStats 8
            [InLine.bad "not json" "SyntaxError: Unexpected token"]
            (some conservativeNetOptions)).1.removedRequests := by
  decide

/-- C1 (amended): in the trace pipeline, `totalEntries` counts only the
successfully parsed lines, and equals the parsed-and-kept records (the
output minus the synthesized malformed records) plus `removedEntries`;
in the network pipeline (fresh instance), `totalRequests` is the raw
line count and exceeds `keptRequests + removedRequests` by exactly the
number of blank and malformed lines.  In both pipelines the removal
category counters sum exactly to the removed count. -/
theorem c1_amended :
    (∀ (prev : FilterStats) (sb : Nat) (ls : List (InLine TraceEntry))
        (o : FilterOptions),
      (filterTraceFile prev sb ls o).1.totalEntries + countBad ls =
          (filterTraceFile prev sb ls o).2.length +
            (filterTraceFile prev sb ls o).1.removedEntries ∧
        sumVals (filterTraceFile prev sb ls o).1.removedByType =
          (filterTraceFile prev sb ls o).1.removedEntries) ∧
    (∀ (sb : Nat) (ls : List (InLine NetworkTraceEntry))
        (o : NetworkFilterOptions),
      (filterNetworkTrace initNetworkFilterStats sb ls
            (some o)).1.totalRequests =
          (filterNetworkTrace initNetworkFilterStats sb ls
              (some o)).1.keptRequests +
            (filterNetworkTrace initNetworkFilterStats sb ls
                (some o)).1.removedRequests +
            countBad ls + countBlank ls ∧
        sumVals (filterNetworkTrace initNetworkFilterStats sb ls
            (some o)).1.removedByCategory =
          (filterNetworkTrace initNetworkFilterStats sb ls
              (some o)).1.removedRequests) := by
  constructor
  · intro prev sb ls o
    simp only [filterTraceFile, runTraceLines_spec]
    refine ⟨?_, ?_⟩
    · have h1 := trace_out_length o ls
      simp only [freshFilterStats]
      omega
    · rw [sumVals_foldl_bump]
      simp [freshFilterStats, sumVals]
  · intro sb ls o
    simp only [filterNetworkTrace, runNetLines_spec]
    refine ⟨?_, ?_⟩
    · have h1 := net_counts_split o ls
      have h2 := counts_partition ls
      simp only [initNetworkFilterStats]
      omega
    · rw [sumVals_foldl_bump]
      simp [initNetworkFilterStats, sumVals]

/-- C2 (counterexample): the trace pipeline does NOT include a
synthesized malformed record in `totalEntries`: one unparseable line
yields the malformed record in the output but `totalEntries = 0`. -/
theorem c2_counterexample :
    (filterTraceFile freshFilterStats 2 [InLine.bad "not json" "SyntaxError"]
        minimalTraceOptions).2 =
      [mkMalformedTrace "not json" "SyntaxError"] ∧
    (filterTraceFile freshFilterStats 2 [InLine.bad "not json" "SyntaxError"]
        minimalTraceOptions).1.totalEntries = 0 := by
  decide

/-- C2 (amended): an unparseable line never fails the run; both
pipelines put a synthesized `"malformed"`-typed record carrying the raw
line and the error description into the output; the network pipeline
counts it in `totalRequests` (the raw line count), but the trace
pipeline's `totalEntries` counts only successfully parsed lines and
excludes it. -/
theorem c2_amended :
    (∀ (prev : FilterStats) (sb : Nat) (ls : List (InLine TraceEntry))
        (o : FilterOptions) (raw err : String),
      InLine.bad raw err ∈ ls →
        mkMalformedTrace raw err ∈ (filterTraceFile prev sb ls o).2) ∧
    (∀ (prev : FilterStats) (sb : Nat) (ls : List (InLine TraceEntry))
        (o : FilterOptions),
      (filterTraceFile prev sb ls o).1.totalEntries = countGood ls) ∧
    (∀ (prev : NetworkFilterStats) (sb : Nat)
        (ls : List (InLine NetworkTraceEntry))
        (o : Option NetworkFilterOptions) (raw err : String),
      InLine.bad raw err ∈ ls →
        mkMalformedNet raw err ∈ (filterNetworkTrace prev sb ls o).2) ∧
    (∀ (prev : NetworkFilterStats) (sb : Nat)
        (ls : List (InLine NetworkTraceEntry))
        (o : Option NetworkFilterOptions),
      (filterNetworkTrace prev sb ls o).1.totalRequests = ls.length) := by
  refine ⟨?_, ?_, ?_, ?_⟩
  · intro prev sb ls o raw err hmem
    simp only [filterTraceFile, runTraceLines_spec]
    exact List.mem_filterMap.mpr ⟨InLine.bad raw err, hmem, rfl⟩
  · intro prev sb ls o
    simp [filterTraceFile, runTraceLines_spec, freshFilterStats]
  · intro prev sb ls o raw err hmem
    simp only [filterNetworkTrace, runNetLines_spec]
    refine List.mem_filterMap.mpr ⟨InLine.bad raw err, hmem, ?_⟩
    cases o <;> rfl
  · intro prev sb ls o
    simp [filterNetworkTrace, runNetLines_spec]

/-- C2 (witness): instantiation of the amended claim on a one-line
malformed input for each pipeline. -/
theorem c2_witness :
    mkMalformedTrace "x" "e" ∈
      (filterTraceFile freshFilterStats 0 [InLine.bad "x" "e"]
        minimalTraceOptions).2 ∧
    mkMalformedNet "x" "e" ∈
      (filterNetworkTrace initNetworkFilterStats 0 [InLine.bad "x" "e"]
        (some conservativeNetOptions)).2 :=
  ⟨c2_amended.1 freshFilterStats 0 _ minimalTraceOptions "x" "e"
      (List.mem_singleton.mpr rfl),
   c2_amended.2.2.1 initNetworkFilterStats 0 _ (some conservativeNetOptions)
      "x" "e" (List.mem_singleton.mpr rfl)⟩

/-- C3 (counterexample): the claim "size < 1000 is returned unchanged"
fails at `content.size = 0` (the source's truthiness guard
`content.size && ...` skips the small-size exemption for size 0, so the
marker is added), and the claim "body payload dropped" fails because the
source spreads the original content object: the opaque payload field is
retained alongside the marker. -/
theorem c3_counterexample :
    truncateResponseBody zeroSizeContent 200 ≠ zeroSizeContent ∧
    (truncateResponseBody sampleContent 200).extra =
      [("text", "PAYLOAD")] ∧
    (truncateResponseBody sampleContent 200).truncated = some true := by
  decide

/-- C3 (amended): with truncation enabled, a response content object is
returned unchanged when `status ≥ 400`, or when its size is nonzero and
below 1000; otherwise (including the size-0 case) the marker fields
`_note`, `_originalSize`, `_truncated` are set on top of the original
object, all other fields — including any body payload — retained. -/
theorem c3_amended : ∀ (c : Content) (s : Int),
    (s ≥ 400 → truncateResponseBody c s = c) ∧
    (¬ s ≥ 400 → c.size ≠ 0 → c.size < 1000 →
      truncateResponseBody c s = c) ∧
    (¬ s ≥ 400 → (c.size = 0 ∨ ¬ c.size < 1000) →
      truncateResponseBody c s =
        { c with
          note := some "Response body truncated for successful request",
          originalSize := some c.size, truncated := some true }) := by
  intro c s
  refine ⟨?_, ?_, ?_⟩
  · intro h
    simp [truncateResponseBody, h]
  · intro h1 h2 h3
    have hb : (c.size != 0 && decide (c.size < 1000)) = true := by
      simp [bne_iff_ne, h2, h3]
    simp [truncateResponseBody, h1, hb]
  · intro h1 h2
    have hb : (c.size != 0 && decide (c.size < 1000)) = false := by
      rcases h2 with h2 | h2 <;> simp [bne_iff_ne, h2]
    simp [truncateResponseBody, h1, hb]

/-- C3 (witness): a status-500 response of size 50000 is untouched, a
status-200 response of nonzero size 10 is untouched, and a status-200
response of size 50000 receives the marker fields. -/
theorem c3_witness :
    truncateResponseBody sampleContent 500 = sampleContent ∧
    truncateResponseBody smallContent 200 = smallContent ∧
    truncateResponseBody sampleContent 200 =
      { sampleContent with
        note := some "Response body truncated for successful request",
        originalSize := some 50000, truncated := some true } :=
  ⟨(c3_amended sampleContent 500).1 (by norm_num),
   (c3_amended smallContent 200).2.1 (by norm_num) (by decide) (by decide),
   (c3_amended sampleContent 200).2.2 (by norm_num) (Or.inr (by decide))⟩

/-- C4 (counterexample): the network preset lookup performs NO
unknown-name check: with the unrecognized name "bogus" the run does not
fail before I/O — it completes normally, and (because the per-line
`try` swallows the `TypeError` thrown by the first access to the
undefined options bundle) every parsed line degrades to a synthesized
malformed record, with nothing counted kept or removed. -/
theorem c4_counterexample :
    networkPresets.lookup "bogus" = none ∧
    (filterNetworkTraceWithPreset initNetworkFilterStats 9
        [InLine.good "raw" sampleNetEntry] "bogus").2 =
      [mkMalformedNet "raw" undefinedOptionsError] ∧
    (filterNetworkTraceWithPreset initNetworkFilterStats 9
        [InLine.good "raw" sampleNetEntry] "bogus").1.keptRequests = 0 ∧
    (filterNetworkTraceWithPreset initNetworkFilterStats 9
        [InLine.good "raw" sampleNetEntry] "bogus").1.removedRequests = 0 ∧
    (filterNetworkTraceWithPreset initNetworkFilterStats 9
        [InLine.good "raw" sampleNetEntry] "bogus").1.totalRequests = 1 := by
  decide

/-- C4 (amended): the trace-filter preset lookup raises
`Unknown preset: <name>` for every unrecognized name, before any record
processing and independent of the input; the network-filter preset
lookup has no such check — an unrecognized name yields an undefined
options bundle, the run proceeds, every non-blank line is replaced by a
synthesized malformed record, and no request is counted kept or
removed. -/
theorem c4_amended :
    (∀ (preset : String), createFilterPresets.lookup preset = none →
      ∀ (prev : FilterStats) (sb : Nat) (ls : List (InLine TraceEntry)),
        filterTraceWithPreset prev sb ls preset =
          Except.error ("Unknown preset: " ++ preset)) ∧
    (∀ (preset : String), networkPresets.lookup preset = none →
      ∀ (prev : NetworkFilterStats) (sb : Nat)
          (ls : List (InLine NetworkTraceEntry)),
        (filterNetworkTraceWithPreset prev sb ls preset).2 =
            ls.filterMap (netLineOut none) ∧
          (filterNetworkTraceWithPreset prev sb ls preset).1.keptRequests =
            prev.keptRequests ∧
          (filterNetworkTraceWithPreset prev sb ls
              preset).1.removedRequests = prev.removedRequests) := by
  constructor
  · intro preset h prev sb ls
    simp [filterTraceWithPreset, h]
  · intro preset h prev sb ls
    have hkept : netKeptCount none ls = 0 := by
      simp only [netKeptCount]
      rw [List.countP_eq_zero]
      intro l hl
      cases l <;> simp
    have hcats : netRemovedCats none ls = [] := by
      simp only [netRemovedCats]
      rw [List.filterMap_eq_nil_iff]
      intro l hl
      cases l <;> rfl
    simp [filterNetworkTraceWithPreset, h, filterNetworkTrace,
      runNetLines_spec, hkept, hcats]

/-- C4 (witness): instantiation of the amended claim at the
unrecognized preset name "bogus". -/
theorem c4_witness :
    filterTraceWithPreset freshFilterStats 0 [] "bogus" =
      Except.error "Unknown preset: bogus" ∧
    (filterNetworkTraceWithPreset initNetworkFilterStats 0
        [InLine.good "g" sampleNetEntry] "bogus").1.keptRequests = 0 :=
  ⟨c4_amended.1 "bogus" (by decide) freshFilterStats 0 [],
   by
    have h := (c4_amended.2 "bogus" (by decide) initNetworkFilterStats 0
      [InLine.good "g" sampleNetEntry]).2.1
    simpa using h⟩

/-- C5 (counterexample): idempotence on record count fails for the trace
pipeline under the `minimal` preset.  `bigEntry` is a console record
kept by the first pass (its text contains "error"), but stack-trace
truncation cuts out the only keyword occurrence; re-filtering the first
pass's output removes the record as `console-verbose`. -/
theorem c5_counterexample :
    createFilterPresets.lookup "minimal" = some minimalTraceOptions ∧
    (filterTraceFile freshFilterStats 0 [InLine.good "r" bigEntry]
        minimalTraceOptions).1.removedEntries = 0 ∧
    (filterTraceFile freshFilterStats 0
        (((filterTraceFile freshFilterStats 0 [InLine.good "r" bigEntry]
            minimalTraceOptions).2).map
          (fun e => InLine.good (stringifyTraceEntry e) e))
        minimalTraceOptions).1.removedEntries = 1 := by
  have h1 := shouldRemoveEntry_bigEntry
  have hpass1 : (filterTraceFile freshFilterStats 0
      [InLine.good "r" bigEntry] minimalTraceOptions).2 =
        [truncBigEntry] := by
    simp only [filterTraceFile, runTraceLines_spec, List.filterMap_cons,
      List.filterMap_nil, traceLineOut, h1]
  refine ⟨by decide, ?_, ?_⟩
  · simp only [filterTraceFile, runTraceLines_spec, traceRemovedCats,
      List.filterMap_cons, List.filterMap_nil, h1, List.length_nil,
      freshFilterStats, Nat.add_zero]
  · rw [hpass1]
    simp only [List.map_cons, List.map_nil, filterTraceFile,
      runTraceLines_spec, traceRemovedCats, List.filterMap_cons,
      List.filterMap_nil, shouldRemoveEntry_truncBigEntry,
      List.length_cons, List.length_nil, freshFilterStats, Nat.add_zero,
      Nat.zero_add]

/-- C5 (amended): re-filtering a filtered file with the same options
removes zero additional records in the network pipeline for EVERY
options bundle (kept records keep their URL, and their body size is
either preserved or deleted, so no removal rule can start matching;
synthesized malformed records match no rule), and in the trace pipeline
for every options bundle with console filtering disabled (the
conservative and moderate presets).  With console filtering and
truncation both enabled, truncation can delete a kept console record's
only importance keywords, and the second pass then removes it (see the
counterexample). -/
theorem c5_amended :
    (∀ (o : NetworkFilterOptions) (prev : NetworkFilterStats)
        (sb sb2 : Nat) (ls : List (InLine NetworkTraceEntry)),
      (filterNetworkTrace initNetworkFilterStats sb2
          (((filterNetworkTrace prev sb ls (some o)).2).map
            (fun e => InLine.good (stringifyNetEntry e) e))
          (some o)).1.removedRequests = 0) ∧
    (∀ (o : FilterOptions), o.filterConsoleLogs = false →
      ∀ (prev prev2 : FilterStats) (sb sb2 : Nat)
          (ls : List (InLine TraceEntry)),
      (filterTraceFile prev2 sb2
          (((filterTraceFile prev sb ls o).2).map
            (fun e => InLine.good (stringifyTraceEntry e) e))
          o).1.removedEntries = 0) := by
  constructor
  · intro o prev sb sb2 ls
    have hout : (filterNetworkTrace prev sb ls (some o)).2 =
        ls.filterMap (netLineOut (some o)) := by
      simp [filterNetworkTrace, runNetLines_spec]
    have hkeep : ∀ e ∈ (filterNetworkTrace prev sb ls (some o)).2,
        shouldRemoveRequest e o = none := by
      intro e he
      rw [hout] at he
      rcases List.mem_filterMap.mp he with ⟨l, hl, hval⟩
      cases l with
      | blank => simp [netLineOut] at hval
      | bad raw err =>
          simp only [netLineOut, Option.some.injEq] at hval
          rw [← hval]
          exact shouldRemoveRequest_malformed raw err o
      | good raw e0 =>
          simp only [netLineOut] at hval
          rcases h0 : shouldRemoveRequest e0 o with _ | c
          · rw [h0] at hval
            simp only [Option.some.injEq] at hval
            rw [← hval]
            exact shouldRemoveRequest_none_transfer e0 _ o
              (transformEntry_url e0 o) (transformEntry_bodySize e0 o) h0
          · rw [h0] at hval
            simp at hval
    have hcats : netRemovedCats (some o)
        (((filterNetworkTrace prev sb ls (some o)).2).map
          (fun e => InLine.good (stringifyNetEntry e) e)) = [] := by
      simp only [netRemovedCats]
      rw [List.filterMap_eq_nil_iff]
      intro l hl
      rcases List.mem_map.mp hl with ⟨e, he, rfl⟩
      simpa using hkeep e he
    rw [hout] at hcats
    simp [filterNetworkTrace, runNetLines_spec, hcats,
      initNetworkFilterStats]
  · intro o hc prev prev2 sb sb2 ls
    have hout : (filterTraceFile prev sb ls o).2 =
        ls.filterMap (traceLineOut o) := by
      simp [filterTraceFile, runTraceLines_spec]
    have hkeep : ∀ e ∈ (filterTraceFile prev sb ls o).2,
        (shouldRemoveEntry e o).1 = none := by
      intro e he
      rw [hout] at he
      rcases List.mem_filterMap.mp he with ⟨l, hl, hval⟩
      cases l with
      | blank => simp [traceLineOut] at hval
      | bad raw err =>
          simp only [traceLineOut, Option.some.injEq] at hval
          rw [← hval]
          exact shouldRemoveEntry_malformed_fst raw err o
      | good raw e0 =>
          simp only [traceLineOut] at hval
          rcases h0 : shouldRemoveEntry e0 o with ⟨c, kept⟩
          cases c with
          | none =>
              rw [h0] at hval
              simp only [Option.some.injEq] at hval
              rw [← hval]
              have h2 := shouldRemoveEntry_keep_again e0 o hc (by
                rw [h0])
              rw [h0] at h2
              exact h2
          | some cat =>
              rw [h0] at hval
              simp at hval
    have hcats : traceRemovedCats o
        (((filterTraceFile prev sb ls o).2).map
          (fun e => InLine.good (stringifyTraceEntry e) e)) = [] := by
      simp only [traceRemovedCats]
      rw [List.filterMap_eq_nil_iff]
      intro l hl
      rcases List.mem_map.mp hl with ⟨e, he, rfl⟩
      simpa using hkeep e he
    rw [hout] at hcats
    simp [filterTraceFile, runTraceLines_spec, hcats, freshFilterStats]

/-- C5 (witness): instantiation of the amended claim on a one-record
input for each pipeline (conservative presets). -/
theorem c5_witness :
    (filterNetworkTrace initNetworkFilterStats 0
        (((filterNetworkTrace initNetworkFilterStats 0
            [InLine.good "g" sampleNetEntry]
            (some conservativeNetOptions)).2).map
          (fun e => InLine.good (stringifyNetEntry e) e))
        (some conservativeNetOptions)).1.removedRequests = 0 ∧
    (filterTraceFile freshFilterStats 0
        (((filterTraceFile freshFilterStats 0 [InLine.good "g" frameEntry]
            conservativeTraceOptions).2).map
          (fun e => InLine.good (stringifyTraceEntry e) e))
        conservativeTraceOptions).1.removedEntries = 0 :=
  ⟨c5_amended.1 conservativeNetOptions initNetworkFilterStats 0 0 _,
   c5_amended.2 conservativeTraceOptions (by decide) freshFilterStats
     freshFilterStats 0 0 _⟩

/-- C6: both pipelines' whole-record removal is exactly the first match
of the documented ordered rule list (trace: frame-snapshot,
screencast-frame, console-verbose, ui-elements; network: analytics,
cloud-analytics, maps-api, blob-url, large-upload, static-cdn,
static-asset, third-party-widget), and a removal is attributed to
exactly the returned rule's category: the statistics bump that category
once, the removed counter once, and the record is dropped. -/
theorem c6_first_match_priority :
    (∀ (e : TraceEntry) (o : FilterOptions),
      (shouldRemoveEntry e o).1 = firstMatch (traceRuleList o) e) ∧
    (∀ (e : NetworkTraceEntry) (o : NetworkFilterOptions),
      shouldRemoveRequest e o = firstMatch (netRuleList o) e) ∧
    (∀ (st : NetworkFilterStats) (e : NetworkTraceEntry)
        (o : NetworkFilterOptions) (c : String),
      shouldRemoveRequest e o = some c →
        filterEntry st e o =
          ({ st with removedRequests := st.removedRequests + 1,
                     removedByCategory := bump st.removedByCategory c },
           none)) ∧
    (∀ (st : FilterStats) (o : FilterOptions) (raw : String)
        (e : TraceEntry) (c : String),
      (shouldRemoveEntry e o).1 = some c →
        traceStep o st (InLine.good raw e) =
          ({ st with
             totalEntries := st.totalEntries + 1,
             removedEntries := st.removedEntries + 1,
             removedByType := bump st.removedByType c }, none)) := by
  refine ⟨shouldRemoveEntry_firstMatch, shouldRemoveRequest_firstMatch,
    ?_, ?_⟩
  · intro st e o c h
    simp [filterEntry, h]
  · intro st o raw e c h
    rcases h2 : shouldRemoveEntry e o with ⟨c2, kept⟩
    rw [h2] at h
    simp only at h
    subst h
    simp [traceStep, h2]

/-- C6 (witness): instantiation of the attribution conjuncts on a
removable record of each pipeline. -/
theorem c6_witness :
    filterEntry initNetworkFilterStats analyticsNetEntry
        conservativeNetOptions =
      ({ initNetworkFilterStats with
         removedRequests := 1,
         removedByCategory := [("analytics", 1)] }, none) ∧
    traceStep minimalTraceOptions freshFilterStats
        (InLine.good "g" frameEntry) =
      ({ freshFilterStats with
         totalEntries := 1, removedEntries := 1,
         removedByType := [("frame-snapshot", 1)] }, none) := by
  constructor
  · have h := c6_first_match_priority.2.2.1 initNetworkFilterStats
      analyticsNetEntry conservativeNetOptions "analytics" (by decide)
    rw [h]
    decide
  · have h := c6_first_match_priority.2.2.2 freshFilterStats
      minimalTraceOptions "g" frameEntry "frame-snapshot" (by decide)
    rw [h]
    decide

/-- C7 (counterexample): the network filter does NOT reset its
statistics between calls: after two identical one-kept-record calls on
the same instance, the second call reports `keptRequests = 2`, counting
the earlier call's record. -/
theorem c7_counterexample :
    (filterNetworkTrace initNetworkFilterStats 9
        [InLine.good "g" sampleNetEntry]
        (some conservativeNetOptions)).1.keptRequests = 1 ∧
    (filterNetworkTrace
        (filterNetworkTrace initNetworkFilterStats 9
          [InLine.good "g" sampleNetEntry]
          (some conservativeNetOptions)).1
        9 [InLine.good "g" sampleNetEntry]
        (some conservativeNetOptions)).1.keptRequests = 2 := by
  decide

/-- C7 (amended): the trace filter resets its statistics at the start
of every call, so the result is independent of the instance state; the
network filter does not: `totalRequests`, `sizeBefore` and `sizeAfter`
are overwritten each call, but `keptRequests`, `removedRequests` and
every `removedByCategory` counter accumulate on top of the instance
state left by earlier calls. -/
theorem c7_amended :
    (∀ (prev prev2 : FilterStats) (sb : Nat)
        (ls : List (InLine TraceEntry)) (o : FilterOptions),
      filterTraceFile prev sb ls o = filterTraceFile prev2 sb ls o) ∧
    (∀ (prev : NetworkFilterStats) (sb : Nat)
        (ls : List (InLine NetworkTraceEntry))
        (o : Option NetworkFilterOptions),
      (filterNetworkTrace prev sb ls o).2 =
          (filterNetworkTrace initNetworkFilterStats sb ls o).2 ∧
        (filterNetworkTrace prev sb ls o).1.totalRequests =
          (filterNetworkTrace initNetworkFilterStats sb ls
            o).1.totalRequests ∧
        (filterNetworkTrace prev sb ls o).1.sizeBefore =
          (filterNetworkTrace initNetworkFilterStats sb ls
            o).1.sizeBefore ∧
        (filterNetworkTrace prev sb ls o).1.sizeAfter =
          (filterNetworkTrace initNetworkFilterStats sb ls
            o).1.sizeAfter ∧
        (filterNetworkTrace prev sb ls o).1.keptRequests =
          prev.keptRequests +
            (filterNetworkTrace initNetworkFilterStats sb ls
              o).1.keptRequests ∧
        (filterNetworkTrace prev sb ls o).1.removedRequests =
          prev.removedRequests +
            (filterNetworkTrace initNetworkFilterStats sb ls
              o).1.removedRequests ∧
        ∀ (k : String),
          lookupCount (filterNetworkTrace prev sb ls
              o).1.removedByCategory k =
            lookupCount prev.removedByCategory k +
              lookupCount (filterNetworkTrace initNetworkFilterStats sb ls
                o).1.removedByCategory k) := by
  constructor
  · intro prev prev2 sb ls o
    rfl
  · intro prev sb ls o
    refine ⟨?_, ?_, ?_, ?_, ?_, ?_, ?_⟩
    · simp [filterNetworkTrace, runNetLines_spec]
    · simp [filterNetworkTrace, runNetLines_spec]
    · simp [filterNetworkTrace, runNetLines_spec]
    · simp [filterNetworkTrace, runNetLines_spec]
    · simp [filterNetworkTrace, runNetLines_spec, initNetworkFilterStats]
    · simp [filterNetworkTrace, runNetLines_spec, initNetworkFilterStats]
    · intro k
      simp only [filterNetworkTrace, runNetLines_spec,
        initNetworkFilterStats]
      rw [lookupCount_foldl_bump, lookupCount_foldl_bump]
      simp [lookupCount]

/-- C8 (counterexample): the network output does not end with a trailing
newline: for a run with one kept record the written string's last
character is the record's closing brace, not a newline. -/
theorem c8_counterexample :
    (filterNetworkTrace initNetworkFilterStats 9
        [InLine.good "g" sampleNetEntry]
        (some conservativeNetOptions)).2 ≠ [] ∧
    (netOutputString (filterNetworkTrace initNetworkFilterStats 9
        [InLine.good "g" sampleNetEntry]
        (some conservativeNetOptions)).2).data.getLast? ≠ some '\n' := by
  decide

/-- C8 (amended): every serialized record is nonempty and contains no
newline character, so each output file carries exactly one compact JSON
object per non-empty line, in the order induced by the input (the output
record list is a per-line `filterMap` of the input).  The trace output
is the records joined by newlines plus a single trailing newline
(splitting it at newlines yields the records followed by one empty
tail); the network output is the records joined by newlines with NO
trailing newline (and is empty for an empty record list). -/
theorem c8_amended :
    (∀ (es : List TraceEntry), es ≠ [] →
      splitCh '\n' (traceOutputString es).data =
        es.map (fun e => (stringifyTraceEntry e).data) ++ [[]]) ∧
    (∀ (es : List NetworkTraceEntry), es ≠ [] →
      splitCh '\n' (netOutputString es).data =
        es.map (fun e => (stringifyNetEntry e).data)) ∧
    (∀ e : TraceEntry,
      stringifyTraceEntry e ≠ "" ∧
        '\n' ∉ (stringifyTraceEntry e).data) ∧
    (∀ e : NetworkTraceEntry,
      stringifyNetEntry e ≠ "" ∧ '\n' ∉ (stringifyNetEntry e).data) ∧
    (∀ (prev : FilterStats) (sb : Nat) (ls : List (InLine TraceEntry))
        (o : FilterOptions),
      (filterTraceFile prev sb ls o).2 = ls.filterMap (traceLineOut o)) ∧
    (∀ (prev : NetworkFilterStats) (sb : Nat)
        (ls : List (InLine NetworkTraceEntry))
        (o : Option NetworkFilterOptions),
      (filterNetworkTrace prev sb ls o).2 =
        ls.filterMap (netLineOut o)) ∧
    netOutputString [] = "" := by
  refine ⟨traceOutput_lines, netOutput_lines, ?_, ?_, ?_, ?_, rfl⟩
  · intro e
    exact ⟨stringifyTraceEntry_ne_empty e, nl_not_mem_stringifyTraceEntry e⟩
  · intro e
    exact ⟨stringifyNetEntry_ne_empty e, nl_not_mem_stringifyNetEntry e⟩
  · intro prev sb ls o
    simp [filterTraceFile, runTraceLines_spec]
  · intro prev sb ls o
    simp [filterNetworkTrace, runNetLines_spec]

/-- C8 (witness): instantiation of the amended claim's line-splitting
conjuncts on one-record outputs. -/
theorem c8_witness :
    splitCh '\n' (traceOutputString [mkMalformedTrace "a" "b"]).data =
      [(stringifyTraceEntry (mkMalformedTrace "a" "b")).data, []] ∧
    splitCh '\n' (netOutputString [mkMalformedNet "a" "b"]).data =
      [(stringifyNetEntry (mkMalformedNet "a" "b")).data] := by
  constructor
  · have h := c8_amended.1 [mkMalformedTrace "a" "b"] (by simp)
    simpa using h
  · have h := c8_amended.2.1 [mkMalformedNet "a" "b"] (by simp)
    simpa using h

/-- C9 (counterexample): a kept console record whose text has 5109
characters and contains "\n    at " but splits into only two lines is
NOT truncated — the claim omits the source's additional
`lines.length > 20` requirement. -/
theorem c9_counterexample :
    truncOnlyOptions.truncateStackTraces = true ∧
    flatEntry.type = some (.str "console") ∧
    flatEntry.text = some (.str flatText) ∧
    flatText.length > 5000 ∧
    strIncludes flatText "\n    at " = true ∧
    (shouldRemoveEntry flatEntry truncOnlyOptions).1 = none ∧
    (shouldRemoveEntry flatEntry truncOnlyOptions).2.text ≠
      some (.str (truncateText flatText)) := by
  refine ⟨rfl, rfl, rfl, ?_, strIncludes_flatText_at, ?_, ?_⟩
  · rw [flatText_length]
    norm_num
  · rw [shouldRemoveEntry_flatEntry]
  · rw [shouldRemoveEntry_flatEntry]
    show some (JPrim.str flatText) ≠ some (JPrim.str (truncateText flatText))
    intro h
    injection h with h1
    injection h1 with h2
    exact flatText_ne_trunc h2

/-- C9 (amended): for every kept trace record of type console with
stack-trace truncation enabled whose text exceeds 5000 characters,
contains the literal substring "\n    at ", AND splits at newlines into
more than 20 lines, the text is replaced in place by the first 10 lines,
the literal truncation marker line, and the last 5 lines (joined by
newlines), with all other fields unchanged. -/
theorem c9_amended (e : TraceEntry) (o : FilterOptions) (s : String)
    (htr : o.truncateStackTraces = true)
    (hty : jsOr e.type (.str "") = .str "console")
    (htx : e.text = some (.str s))
    (hne : s ≠ "")
    (hlen : s.length > 5000)
    (hat : strIncludes s "\n    at " = true)
    (hlines : (splitStr '\n' s).length > 20)
    (hkeep : (shouldRemoveEntry e o).1 = none) :
    shouldRemoveEntry e o =
      (none, { e with text := some (.str (truncateText s)) }) ∧
    truncateText s =
      joinSep "\n" ((splitStr '\n' s).take 10 ++ [truncMarker] ++
        (splitStr '\n' s).drop ((splitStr '\n' s).length - 5)) := by
  refine ⟨?_, rfl⟩
  simp only [shouldRemoveEntry] at hkeep ⊢
  split_ifs at hkeep ⊢ with h1 h2 h3 h4 h5
  · rw [htx]
    simp [bne_iff_ne.mpr hne, hlen, hat, hlines]
  · exact absurd (by rw [htr, hty]; decide) h5

/-- C9 (witness): the amended claim applied to the concrete 6335-character
716-line console record `bigEntry` under the minimal preset. -/
theorem c9_witness :
    shouldRemoveEntry bigEntry minimalTraceOptions =
      (none, { bigEntry with text := some (.str (truncateText bigText)) }) ∧
    truncateText bigText =
      joinSep "\n" ((splitStr '\n' bigText).take 10 ++ [truncMarker] ++
        (splitStr '\n' bigText).drop
          ((splitStr '\n' bigText).length - 5)) :=
  c9_amended bigEntry minimalTraceOptions bigText rfl (by decide) rfl
    bigText_ne_empty (by rw [bigText_length]; norm_num)
    strIncludes_bigText_at
    (by rw [splitStr_bigText, bigTracePieces_length]; norm_num)
    (by rw [shouldRemoveEntry_bigEntry])

/-- C10: every response header whose lowercase name contains
"set-cookie" is retained regardless of its value (because "set-cookie"
sits in the essential response-header list), while a request header
named exactly "cookie" is kept precisely when its lowercase value
mentions auth, session or csrf — so the value restriction effectively
constrains only request cookie headers. -/
theorem c10_set_cookie_retained (h : Header)
    (hname : strIncludes (lowerStr h.name) "set-cookie" = true) :
    keepHeader false h = true ∧
    (∀ v : String, keepHeader true { name := "cookie", value := v } =
      (strIncludes (lowerStr v) "auth" ||
        strIncludes (lowerStr v) "session" ||
        strIncludes (lowerStr v) "csrf")) := by
  refine ⟨?_, fun v => rfl⟩
  have hc : (essentialResponseHeaders.any
      (fun essential => strIncludes (lowerStr h.name) essential)) = true :=
    List.any_eq_true.mpr
      ⟨"set-cookie", by simp [essentialResponseHeaders], hname⟩
  simp only [keepHeader, Bool.false_eq_true, if_false, hc, if_true]

/-- C10 (witness): a response `Set-Cookie` header with a value free of
auth/session/csrf is kept, while the same value on a request `cookie`
header is dropped. -/
theorem c10_witness :
    keepHeader false { name := "Set-Cookie", value := "tracking=1" } =
      true ∧
    keepHeader true { name := "cookie", value := "tracking=1" } =
      (strIncludes (lowerStr "tracking=1") "auth" ||
        strIncludes (lowerStr "tracking=1") "session" ||
        strIncludes (lowerStr "tracking=1") "csrf") := by
  have h := c10_set_cookie_retained
    { name := "Set-Cookie", value := "tracking=1" } (by decide)
  exact ⟨h.1, h.2 "tracking=1"⟩
